import Mathlib

/-!
Verification of the ImpactX agent pipeline (Node.js sources under
`ImpactX_Agent/`): a shallow embedding of `agent.js`, `impactLogic.js`
and `emailService.js` into Lean, with theorems settling the stated
behavioural claims.  JavaScript strings are modelled as `List Char`,
JavaScript values as the inductive `JsVal`, property access (which can
raise `TypeError` on `null`/`undefined`) as `Except`-valued functions,
and the network as an explicit environment of call outcomes recorded in
a trace.
-/

/-- JavaScript strings, modelled as lists of characters. -/
abbrev Str := List Char

/-- JavaScript exceptions: `TypeError` from property access on
`null`/`undefined`, or a thrown `Error(msg)`. -/
inductive JsErr where
  | typeError
  | thrown (msg : Str)
  deriving Repr, DecidableEq

/-- Dynamically typed JavaScript values (the subset the agent touches). -/
inductive JsVal where
  | undef
  | null
  | bool (b : Bool)
  | num (n : Int)
  | str (s : Str)
  | arr (elems : List JsVal)
  | obj (fields : List (Str × JsVal))

namespace JsVal

/-- JavaScript truthiness: `undefined`, `null`, `false`, `0` and `""` are
falsy; every other value (including all objects and arrays) is truthy. -/
def truthy : JsVal → Bool
  | .undef => false
  | .null => false
  | .bool b => b
  | .num n => n != 0
  | .str s => !s.isEmpty
  | .arr _ => true
  | .obj _ => true

/-- First binding of a key in an object's field list (JS own-property
lookup; later duplicates are shadowed by the first occurrence here,
matching insertion-order lookup for the objects the agent builds). -/
def lookupField : List (Str × JsVal) → Str → Option JsVal
  | [], _ => none
  | (k, v) :: rest, key => if k = key then some v else lookupField rest key

/-- Plain JavaScript property access `v.k`: raises `TypeError` on
`null`/`undefined`, returns `undefined` for a missing key or for
primitives without such a property. -/
def getProp (v : JsVal) (k : Str) : Except JsErr JsVal :=
  match v with
  | .undef => .error .typeError
  | .null => .error .typeError
  | .obj fields => .ok ((lookupField fields k).getD .undef)
  | _ => .ok (.undef)

/-- Optional chaining `v?.k`: `undefined` when the receiver is
`null`/`undefined`, otherwise plain access. -/
def getPropOpt (v : JsVal) (k : Str) : JsVal :=
  match v with
  | .undef => .undef
  | .null => .undef
  | .obj fields => (lookupField fields k).getD .undef
  | _ => (.undef)

/-- JavaScript `a || b`. -/
def jsOr (a b : JsVal) : JsVal := if a.truthy then a else b

/-- Strict equality `v === "lit"` against a string literal. -/
def strEq (v : JsVal) (s : Str) : Bool :=
  match v with
  | .str t => t = s
  | _ => false

mutual

/-- Template-literal string coercion `${v}` (`String(v)`). -/
def jsToStr : JsVal → Str
  | .undef => ("undefined").data
  | .null => ("null").data
  | .bool true => ("true").data
  | .bool false => ("false").data
  | .num n => (toString n).data
  | .str s => s
  | .arr l => ((jsToStrList l).intersperse (",").data).flatten
  | .obj _ => ("[object Object]").data

/-- Pointwise string coercion of array elements (for `Array.toString`). -/
def jsToStrList : List JsVal → List Str
  | [] => []
  | v :: rest => jsToStr v :: jsToStrList rest

end

end JsVal

/-- JavaScript `String.prototype.toUpperCase` (ASCII range, as used on
ticket keys). -/
def jsToUpper (s : Str) : Str := s.map Char.toUpper

/-- Whitespace trimmed by JavaScript `String.prototype.trim`. -/
def jsIsWs (c : Char) : Bool := c.isWhitespace

/-- JavaScript `String.prototype.trim`. -/
def jsTrim (s : Str) : Str :=
  ((s.dropWhile jsIsWs).reverse.dropWhile jsIsWs).reverse

/-- Truthiness of `s.trim()` — true iff `s` has a non-whitespace char. -/
def jsTrimTruthy (s : Str) : Bool := s.any fun c => !jsIsWs c

/-- String-literal coercion kept opaque to `simp` (large template
literals would otherwise be eagerly expanded to character lists). -/
def lit (s : String) : Str := s.data

/-- Fuelled scanner behind `splitOnL`; the fuel only serves structural
termination and is irrelevant whenever it bounds the input length
(`splitOnLF_congr`). -/
def splitOnLF (sep : Str) : Nat → Str → List Str
  | _, [] => [[]]
  | 0, c :: rest => [c :: rest]
  | fuel + 1, c :: rest =>
    if sep.isPrefixOf (c :: rest) ∧ sep ≠ [] then
      [] :: splitOnLF sep fuel (List.drop (sep.length - 1) rest)
    else
      (splitOnLF sep fuel rest).modifyHead (c :: ·)

/-- JavaScript `String.prototype.split(sep)` for a nonempty plain-string
separator: cut at each leftmost occurrence, scanning left to right.
(For an empty separator this definition returns the string whole; the
agent only ever splits on the nonempty marker `"diff --git "`.) -/
def splitOnL (sep s : Str) : List Str := splitOnLF sep s.length s

/-- Leftmost match of the ticket-key pattern `/([A-Z]+-[0-9]+)/i` tried
at the head of the string: with the `i` flag `[A-Z]+` matches a maximal
(greedy, no viable backtrack) run of ASCII letters, which must be
followed by a hyphen and at least one digit; `[0-9]+` is again greedy. -/
def matchJiraAt (s : Str) : Option Str :=
  let letters := s.takeWhile Char.isAlpha
  let rest := s.dropWhile Char.isAlpha
  if letters.isEmpty then none
  else
    match rest with
    | '-' :: rest2 =>
      let digits := rest2.takeWhile Char.isDigit
      if digits.isEmpty then none else some (letters ++ '-' :: digits)
    | _ => none

/-- JavaScript `searchString.match(/([A-Z]+-[0-9]+)/i)`, reduced to the
captured group (equal to the whole match): the engine tries each start
position left to right and returns the first successful match. -/
def jsMatchJiraKey : Str → Option Str
  | [] => none
  | c :: rest => (matchJiraAt (c :: rest)).orElse fun _ => jsMatchJiraKey rest

/-- Ticket-key search string of `agent.js` line 76:
the template literal interpolating PR title, head branch and
`body || ''`, separated by single spaces. -/
def jiraSearchString (title headRef body : JsVal) : Str :=
  JsVal.jsToStr title ++ (" ").data ++ JsVal.jsToStr headRef ++ (" ").data ++
    JsVal.jsToStr (JsVal.jsOr body (.str []))

/-- Ticket-key detection of `agent.js` lines 75-82: first match of the
key pattern over the search string, normalised to upper case. -/
def detectJiraKey (title headRef body : JsVal) : Option Str :=
  (jsMatchJiraKey (jiraSearchString title headRef body)).map jsToUpper

/-- Match of `/https?:\/\/([^\/]+)/` tried at the head: scheme, then a
nonempty greedy run of non-slash characters.  Returns
(whole match, host group). -/
def matchHttpAt (s : Str) : Option (Str × Str) :=
  if ("https://").data.isPrefixOf s then
    let host := (s.drop 8).takeWhile fun c => c != '/'
    if host.isEmpty then none else some (("https://").data ++ host, host)
  else if ("http://").data.isPrefixOf s then
    let host := (s.drop 7).takeWhile fun c => c != '/'
    if host.isEmpty then none else some (("http://").data ++ host, host)
  else none

/-- JavaScript `url.match(/https?:\/\/([^\/]+)/)`: leftmost match,
returning (match[0], match[1]). -/
def jsMatchHttpHost : Str → Option (Str × Str)
  | [] => none
  | c :: rest => (matchHttpAt (c :: rest)).orElse fun _ => jsMatchHttpHost rest

/-- Match of `/browse\/([^\/?]+)/` tried at the head. -/
def matchBrowseAt (s : Str) : Option Str :=
  if ("browse/").data.isPrefixOf s then
    let key := (s.drop 7).takeWhile fun c => c != '/' && c != '?'
    if key.isEmpty then none else some key
  else none

/-- JavaScript `url.match(/browse\/([^\/?]+)/)`, reduced to the captured
issue key. -/
def jsMatchBrowseKey : Str → Option Str
  | [] => none
  | c :: rest => (matchBrowseAt (c :: rest)).orElse fun _ => jsMatchBrowseKey rest

/-- One text run of the rich document: `{type: "text", text, marks?}`;
`strong = true` stands for `marks: [{type: "strong"}]`, `strong = false`
for a run without a marks field. -/
structure TextRun where
  text : Str
  strong : Bool
  deriving DecidableEq, Repr

/-- One node of the rich document body (the converter only ever emits
paragraph nodes). -/
inductive AdfNode where
  | paragraph (content : List TextRun)
  deriving DecidableEq, Repr

/-- Leftmost match of the bold pattern `/\*\*([^*]+)\*\*/` tried at the
head: two asterisks, a nonempty greedy run of non-asterisks, two
asterisks. -/
def matchBoldAt (s : Str) : Option (Str × Str) :=
  match s with
  | '*' :: '*' :: t =>
    let g := t.takeWhile fun c => c != '*'
    let t2 := t.dropWhile fun c => c != '*'
    if g.isEmpty then none
    else
      match t2 with
      | '*' :: '*' :: t3 => some (g, t3)
      | _ => none
  | _ => none

/-- `boldRegex.exec` scan: leftmost match position, returning
(text before the match, captured group, text after the match). -/
def execBold : Str → Option (Str × Str × Str)
  | [] => none
  | c :: rest =>
    match matchBoldAt (c :: rest) with
    | some (g, t) => some ([], g, t)
    | none => (execBold rest).map fun pgt => (c :: pgt.1, pgt.2.1, pgt.2.2)

/-- Fuelled body of the `while ((match = boldRegex.exec(text)))` loop of
`postJiraComment` (`impactLogic.js` lines 304-317) together with the
trailing-remainder push of line 315: emits a plain run for the text
before each match, a strong run for each captured group, and a plain
run for any remainder.  The fuel only serves termination (every match
consumes at least five characters). -/
def boldScanF : Nat → Str → List TextRun
  | 0, s => if s.isEmpty then [] else [⟨s, false⟩]
  | fuel + 1, s =>
    match execBold s with
    | none => if s.isEmpty then [] else [⟨s, false⟩]
    | some (pre, g, rest) =>
      (if pre.isEmpty then [] else [⟨pre, false⟩]) ++ ⟨g, true⟩ :: boldScanF fuel rest

/-- Inline conversion of one trimmed line (`impactLogic.js` lines
300-322): bold scan, falling back to a single plain run when the scan
produced no parts. -/
def lineParts (text : Str) : List TextRun :=
  let parts := boldScanF text.length text
  if parts.isEmpty then [⟨text, false⟩] else parts

/-- Leftmost occurrence of the paragraph separator `/\n\n+/` (two or
more newlines, greedy): returns (text before, text after the run). -/
def findBlankRun : Str → Option (Str × Str)
  | [] => none
  | c :: rest =>
    if c = '\n' then
      match rest with
      | '\n' :: rest2 => some ([], rest2.dropWhile fun x => x = '\n')
      | _ => (findBlankRun rest).map fun pr => (c :: pr.1, pr.2)
    else (findBlankRun rest).map fun pr => (c :: pr.1, pr.2)

/-- Fuelled `commentBody.split(/\n\n+/)`. -/
def splitParasF : Nat → Str → List Str
  | 0, s => [s]
  | fuel + 1, s =>
    match findBlankRun s with
    | none => [s]
    | some (pre, rest) => pre :: splitParasF fuel rest

/-- `commentBody.split(/\n\n+/)` (paragraph split of
`impactLogic.js` line 290). -/
def splitParas (s : Str) : List Str := splitParasF s.length s

/-- Markdown-to-rich-document conversion of `postJiraComment`
(`impactLogic.js` lines 288-337): split into paragraphs on blank lines,
split each paragraph into nonempty lines, trim each line and run the
bold scan on it; fall back to one paragraph holding the raw comment
body when nothing was produced. -/
def adfContentOfComment (commentBody : Str) : List AdfNode :=
  let paragraphs := (splitParas commentBody).filter jsTrimTruthy
  let nodes :=
    (paragraphs.map fun para =>
      ((splitOnL (("\n").data) para).filter jsTrimTruthy).filterMap fun line =>
        let trimmed := jsTrim line
        if trimmed.isEmpty then none
        else some (AdfNode.paragraph (lineParts trimmed))).flatten
  if nodes.isEmpty then [AdfNode.paragraph [⟨commentBody, false⟩]] else nodes

/-- JavaScript `String.prototype.includes(pat)`. -/
def containsSub (pat : Str) : Str → Bool
  | [] => pat.isEmpty
  | c :: rest => pat.isPrefixOf (c :: rest) || containsSub pat rest

/-- Per-file marker on which the self-reference filter splits the diff
(`impactLogic.js` line 117). -/
def diffMarker : Str := ("diff --git ").data

/-- Substring marking the orchestrator's own directory on the left side
of a diff header. -/
def selfRefA : Str := ("a/ImpactX_Agent/").data

/-- Substring marking the orchestrator's own directory on the right side
of a diff header. -/
def selfRefB : Str := ("b/ImpactX_Agent/").data

/-- Keep-predicate of the self-reference filter
(`impactLogic.js` lines 117-119): the segment is kept when
`file.trim()` is truthy and the segment mentions neither
`a/ImpactX_Agent/` nor `b/ImpactX_Agent/`. -/
def keepSegment (seg : Str) : Bool :=
  jsTrimTruthy seg && !containsSub selfRefA seg && !containsSub selfRefB seg

/-- Self-reference filter applied to the raw diff before each model call
(`impactLogic.js` lines 117-119 and 215-217):
`diff.split('diff --git ').filter(...).join('diff --git ')`. -/
def selfRefFilter (diff : Str) : Str :=
  List.intercalate diffMarker ((splitOnL diffMarker diff).filter keepSegment)

/-- Network interactions the pipeline can perform, as recorded in the
run trace (each constructor corresponds to one `fetch`/`sendMail` call
site). -/
inductive NetCall where
  | diffFetch
  | treeFetch
  | modelImpactCall
  | modelTestGenCall
  | ticketFetch (issueKey : Str)
  | ticketPost (targetUrl : Str) (doc : List AdfNode)
  | emailSend
  deriving DecidableEq, Repr

/-- Environment-sourced configuration of `agent.js` lines 50-63: each
`process.env` entry is a string or `undefined`. -/
structure Config where
  githubToken : Option Str
  groqKey : Option Str
  openRouterKey : Option Str
  jiraUrl : Option Str
  jiraEmail : Option Str
  jiraToken : Option Str
  EMAIL_HOST : Option Str
  EMAIL_PORT : Option Str
  EMAIL_USER : Option Str
  EMAIL_PASS : Option Str
  EMAIL_TO : Option Str

/-- Truthiness of an environment variable (string or `undefined`). -/
def envTruthy : Option Str → Bool
  | some s => !s.isEmpty
  | none => false

/-- Outcomes of the external calls a single invocation can make; an
`Except.error` models the call (or its response processing) throwing. -/
structure Env where
  /-- `getGitHubDiff`: response text, or the thrown upstream error. -/
  diffResult : Except JsErr Str
  /-- `getGitHubTree` return value (`null` on a non-ok response,
  otherwise the filtered entry list); its internals are not
  claim-relevant, so the function's result is environment-supplied. -/
  treeResult : Except JsErr JsVal
  /-- model response content (`json.choices[0].message.content`) for
  `summarizeImpact`, or the thrown `AI API error`. -/
  impactContent : Except JsErr Str
  /-- model response content for `generateTestCases`. -/
  testGenContent : Except JsErr Str
  /-- ticket-read call of `getJiraTicket`: `(resp.ok, parsed JSON)`, or
  a thrown fetch/parse error. -/
  ticketFetch : Except JsErr (Bool × JsVal)
  /-- comment-create call of `postJiraComment`: parsed response, or a
  thrown/NON-2xx error. -/
  jiraPost : Except JsErr JsVal
  /-- `transporter.sendMail` outcome. -/
  emailSend : Except JsErr Unit

/-- Pipeline monad: JavaScript exceptions over a trace of network
calls. -/
abbrev AgentM := ExceptT JsErr (StateM (List NetCall))

/-- Record a network call in the trace, then produce its
environment-supplied outcome. -/
def callNet {α : Type} (c : NetCall) (outcome : Except JsErr α) : AgentM α := do
  modify fun tr => tr ++ [c]
  match outcome with
  | .ok a => pure a
  | .error e => throw e

/-- Lift a pure `Except` computation (property accesses, string
building) into the pipeline monad. -/
def liftE {α : Type} (x : Except JsErr α) : AgentM α :=
  match x with
  | .ok a => pure a
  | .error e => throw e

/-- Run one invocation from an empty trace. -/
def runAgent {α : Type} (m : AgentM α) : Except JsErr α × List NetCall :=
  (ExceptT.run m).run []

/-- Fuelled `extractText` of `getJiraTicket` (`impactLogic.js` lines
86-93): a string node is itself; a node with truthy `text` yields that
text; a node whose `content` is an array concatenates the recursive
extraction of its children; anything else yields the empty string.
The fuel only serves structural termination — it starts at `sizeOf`
of the node and recursion always descends into structurally smaller
values, so the 0-fuel arm is unreachable. -/
def extractTextF : Nat → JsVal → Except JsErr Str
  | _, .str s => .ok s
  | 0, _ => .ok []
  | fuel + 1, v => do
    let t ← v.getProp (("text").data)
    if t.truthy then
      .ok (JsVal.jsToStr t)
    else do
      let c ← v.getProp (("content").data)
      match c with
      | .arr elems => do
        let parts ← elems.mapM (extractTextF fuel)
        .ok (List.intercalate [] parts)
      | _ => .ok []

mutual

/-- Executable structural size of a JavaScript value, used as the fuel
bound for `extractText` (it strictly dominates nesting depth). -/
def jsSize : JsVal → Nat
  | .undef => 1
  | .null => 1
  | .bool _ => 1
  | .num _ => 1
  | .str _ => 1
  | .arr l => 1 + jsSizeList l
  | .obj fields => 1 + jsSizeFields fields

/-- Size of an array's elements. -/
def jsSizeList : List JsVal → Nat
  | [] => 0
  | v :: rest => jsSize v + jsSizeList rest

/-- Size of an object's field values. -/
def jsSizeFields : List (Str × JsVal) → Nat
  | [] => 0
  | (_, v) :: rest => jsSize v + jsSizeFields rest

end

/-- `extractText` at adequate fuel. -/
def extractText (v : JsVal) : Except JsErr Str := extractTextF (jsSize v) v

/-- Ticket details assembled by `getJiraTicket`
(`impactLogic.js` lines 98-105). -/
structure TicketInfo where
  key : JsVal
  title : JsVal
  description : Str
  status : JsVal
  priority : JsVal
  issueType : JsVal

/-- Pure processing of the ticket-read response inside the `try` of
`getJiraTicket` (`impactLogic.js` lines 71-108): a non-ok response
yields `null`; otherwise the description is extracted (plain string, or
rich-document text concatenation when `content` is an array — `.map` on
a truthy non-array `content` raises) and the ticket fields are
assembled with their `|| \x27\x27` defaults. -/
def parseTicketResponse (ok : Bool) (issue : JsVal) :
    Except JsErr (Option TicketInfo) := do
  if !ok then
    pure none
  else do
    let fields ← issue.getProp (("fields").data)
    let descV ← fields.getProp (("description").data)
    let description ←
      if descV.truthy then
        match descV with
        | .str s => pure s
        | _ => do
          let contentV ← descV.getProp (("content").data)
          if contentV.truthy then
            match contentV with
            | .arr elems => do
              let parts ← elems.mapM extractText
              pure (List.intercalate (("\n").data) parts)
            | _ => throw JsErr.typeError
          else pure []
      else pure []
    let keyV ← issue.getProp (("key").data)
    let titleV ← fields.getProp (("summary").data)
    let statusObj ← fields.getProp (("status").data)
    let priorityObj ← fields.getProp (("priority").data)
    let issueTypeObj ← fields.getProp (("issuetype").data)
    pure (some
      { key := keyV
        title := JsVal.jsOr titleV (.str [])
        description := description
        status := JsVal.jsOr (statusObj.getPropOpt (("name").data)) (.str [])
        priority := JsVal.jsOr (priorityObj.getPropOpt (("name").data)) (.str [])
        issueType := JsVal.jsOr (issueTypeObj.getPropOpt (("name").data)) (.str []) })

/-- `getJiraTicket` (`impactLogic.js` lines 50-113): the host pattern is
matched against the ticket URL *before* the `try` block, so an
unparsable URL throws `Invalid JIRA URL format` out of the function;
everything inside the `try` (the fetch and the pure response
processing above) is caught and degrades to a `null` result. -/
def getJiraTicket (env : Env) (jiraUrl _jiraEmail _jiraToken issueKey : Str) :
    AgentM (Option TicketInfo) :=
  match jsMatchHttpHost jiraUrl with
  | none => throw (.thrown (("Invalid JIRA URL format").data))
  | some _hostMatch =>
    -- apiUrl/auth assembly from the host group is pure string building
    tryCatch
      (do
        let r ← callNet (.ticketFetch issueKey) env.ticketFetch
        liftE (parseTicketResponse r.1 r.2))
      (fun _err => pure none)

/-- `summarizeImpact` (`impactLogic.js` lines 115-211): filters the diff,
assembles the prompt (pure string work, observable only through the
single model call), requires a provider key, performs the call and
returns the trimmed response content. -/
def summarizeImpact (cfg : Config) (env : Env) (diff : Str) (_structure : JsVal)
    (_jiraTicket : Option TicketInfo) : AgentM Str := do
  let _filteredDiff := selfRefFilter diff
  if envTruthy cfg.groqKey then do
    let content ← callNet .modelImpactCall env.impactContent
    pure (jsTrim content)
  else
    throw (.thrown (("No Groq API Key provided for impact analysis").data))

/-- `generateTestCases` (`impactLogic.js` lines 213-268): filters the
diff, performs the model call unconditionally (the key is only embedded
in the request headers) and returns the trimmed response content. -/
def generateTestCases (_cfg : Config) (env : Env) (diff : Str) (_structure : JsVal)
    (_owner _repo : JsVal) : AgentM Str := do
  let _filteredDiff := selfRefFilter diff
  let content ← callNet .modelTestGenCall env.testGenContent
  pure (jsTrim content)

/-- `postJiraComment` (`impactLogic.js` lines 270-372): parses host and
issue key out of the target URL (throwing `Invalid JIRA URL` when
either fails), converts the comment body to a rich document and posts
it; a non-ok response is a thrown error from the call outcome. -/
def postJiraComment (env : Env) (jiraUrl _jiraEmail _jiraToken commentBody : Str) :
    AgentM JsVal :=
  match jsMatchHttpHost jiraUrl, jsMatchBrowseKey jiraUrl with
  | some _hostMatch, some _issueKey => do
    let content := adfContentOfComment commentBody
    callNet (.ticketPost jiraUrl content) env.jiraPost
  | _, _ => throw (.thrown (("Invalid JIRA URL").data))

/-- JavaScript `v?.length`: `undefined` through the optional chain,
array/string length as a number, object property lookup; other
primitives have no `length`.  (A non-numeric object-supplied `length`
is compared as not-greater-than-zero below, like the NaN coercion.) -/
def jsLengthOpt : JsVal → JsVal
  | .null => .undef
  | .undef => .undef
  | .arr l => .num l.length
  | .str s => .num s.length
  | .obj fields => (JsVal.lookupField fields (("length").data)).getD .undef
  | _ => (.undef)

/-- JavaScript `v > 0` for the length values above: true only for a
positive number (`undefined > 0` is false via NaN). -/
def jsGtZero : JsVal → Bool
  | .num n => 0 < n
  | _ => false

/-- Element coercion of `Array.prototype.join`: `null` and `undefined`
become empty strings (unlike template interpolation). -/
def jsJoinElem (v : JsVal) : Str :=
  match v with
  | .null => []
  | .undef => []
  | _ => JsVal.jsToStr v

/-- JavaScript `v.join(sep)`: defined for arrays, a `TypeError`
otherwise. -/
def jsJoin (v : JsVal) (sep : Str) : Except JsErr Str :=
  match v with
  | .arr l => .ok (List.intercalate sep (l.map jsJoinElem))
  | _ => .error .typeError

/-- JavaScript `v.slice(0, 5).map(...)` receiver handling: arrays yield
their first five elements; any other receiver fails (either `.slice` or
the subsequent `.map` is not a function). -/
def jsSlice5Map (v : JsVal) : Except JsErr (List JsVal) :=
  match v with
  | .arr l => .ok (l.take 5)
  | _ => .error .typeError

/-- Rendering of one suggested test case in the ticket comment
(`agent.js` lines 203-206). -/
def renderTestCase (tc : JsVal) : Except JsErr Str := do
  let stepsV ← tc.getProp (("steps").data)
  let stepsList ←
    match JsVal.jsOr stepsV (.arr []) with
    | .arr l => Except.ok l
    | _ => Except.error JsErr.typeError
  let steps := List.intercalate (("\n").data)
    (stepsList.enum.map fun p =>
      (("   ").data) ++ (toString (p.1 + 1)).data ++ ((". ").data) ++ JsVal.jsToStr p.2)
  let priority ← tc.getProp (("priority").data)
  let title ← tc.getProp (("title").data)
  let expected ← tc.getProp (("expectedResult").data)
  Except.ok ((("- [").data) ++ JsVal.jsToStr priority ++ (("] **").data)
    ++ JsVal.jsToStr title ++ (("**\n**Steps:**\n").data) ++ steps
    ++ (("\n**Expected:** ").data) ++ JsVal.jsToStr expected)

/-- Ticket-comment body template of `handleJiraPosting`
(`agent.js` lines 180-210), including the final `.trim()`. -/
def buildJiraCommentBody (pr analysis testCases action : JsVal) :
    Except JsErr Str := do
  let header := if JsVal.strEq action (("closed").data)
    then ("Post-Merge Analysis").data else ("Impact Analysis").data
  let prNum ← pr.getProp (("number").data)
  let riskV ← analysis.getProp (("risk").data)
  let score := JsVal.jsOr (riskV.getPropOpt (("score").data))
    (.str (("IDENTIFIED").data))
  let riskV2 ← analysis.getProp (("risk").data)
  let reasoning := JsVal.jsOr (riskV2.getPropOpt (("reasoning").data))
    (.str (("No summary provided.").data))
  let ra ← analysis.getProp (("requirementsAlignment").data)
  let raBlock ←
    if ra.truthy then do
      let fa ← ra.getProp (("fullyAddressed").data)
      let ascore ← ra.getProp (("alignmentScore").data)
      let missing ← ra.getProp (("missingRequirements").data)
      let additional ← ra.getProp (("additionalChanges").data)
      let missingLine ←
        if jsGtZero (jsLengthOpt missing) then do
          let j ← jsJoin missing ((", ").data)
          Except.ok ((("- **Missing Requirements:** ").data) ++ j)
        else Except.ok []
      let additionalLine ←
        if jsGtZero (jsLengthOpt additional) then do
          let j ← jsJoin additional ((", ").data)
          Except.ok ((("- **Additional Changes:** ").data) ++ j)
        else Except.ok []
      Except.ok ((("\n#### 🎯 Requirements Alignment\n- **Fully Addressed:** ").data)
        ++ (if fa.truthy then ("✅ Yes").data else ("❌ No").data)
        ++ (("\n- **Alignment Score:** ").data)
        ++ JsVal.jsToStr (JsVal.jsOr ascore (.str (("N/A").data)))
        ++ (("\n").data) ++ missingLine ++ (("\n").data) ++ additionalLine
        ++ (("\n").data))
    else Except.ok []
  let td ← analysis.getProp (("technicalDetails").data)
  let apiI := JsVal.jsOr (td.getPropOpt (("API Impact").data)) (.str (("N/A").data))
  let dbI := JsVal.jsOr (td.getPropOpt (("Database Impact").data)) (.str (("N/A").data))
  let logicI := JsVal.jsOr (td.getPropOpt (("Logic Impact").data)) (.str (("N/A").data))
  let secI := JsVal.jsOr (td.getPropOpt (("Security Impact").data)) (.str (("N/A").data))
  let tcsV ← testCases.getProp (("testCases").data)
  let tcsList ← jsSlice5Map (JsVal.jsOr tcsV (.arr []))
  let rendered ← tcsList.mapM renderTestCase
  let tcSection := List.intercalate (("\n\n").data) rendered
  Except.ok (jsTrim (
    (("\n### 🤖 ImpactX AI: ").data) ++ header ++ ((" (PR #").data)
    ++ JsVal.jsToStr prNum
    ++ ((")\n**Risk Level:** ").data) ++ JsVal.jsToStr score
    ++ (("\n\n#### 📝 Summary\n").data) ++ JsVal.jsToStr reasoning
    ++ (("\n\n").data) ++ raBlock
    ++ (("\n\n#### 🔧 Technical Details\n- **API:** ").data) ++ JsVal.jsToStr apiI
    ++ (("\n- **Database:** ").data) ++ JsVal.jsToStr dbI
    ++ (("\n- **Logic:** ").data) ++ JsVal.jsToStr logicI
    ++ (("\n- **Security:** ").data) ++ JsVal.jsToStr secI
    ++ (("\n\n#### 🧪 Suggested Test Cases\n").data) ++ tcSection
    ++ (("\n\n---\n*Standalone ImpactX Agent*\n    ").data)))

/-- `handleJiraPosting` (`agent.js` lines 142-219): skip without ticket
configuration; re-detect the key when none was passed; give up silently
on an unparsable base URL; build the comment body (errors here
propagate — it happens before the `try`); post inside a `try` whose
`catch` only logs. -/
def handleJiraPosting (cfg : Config) (env : Env) (pr analysis testCases action : JsVal)
    (jiraKey : Option Str) : AgentM Unit := do
  if !envTruthy cfg.jiraUrl || !envTruthy cfg.jiraToken || !envTruthy cfg.jiraEmail then
    pure ()
  else do
    let key? ←
      match jiraKey with
      | some k => pure (some k)
      | none => do
        let title ← liftE (pr.getProp (("title").data))
        let headV ← liftE (pr.getProp (("head").data))
        let headRef ← liftE (headV.getProp (("ref").data))
        let bodyV ← liftE (pr.getProp (("body").data))
        pure (detectJiraKey title headRef bodyV)
    match key? with
    | none => pure ()
    | some key => do
      match jsMatchHttpHost (cfg.jiraUrl.getD []) with
      | none => pure ()
      | some hostMatch => do
        let targetUrl := hostMatch.1 ++ (("/browse/").data) ++ key
        let commentBody ← liftE (buildJiraCommentBody pr analysis testCases action)
        tryCatch
          (do
            let _ ← postJiraComment env targetUrl (cfg.jiraEmail.getD [])
              (cfg.jiraToken.getD []) commentBody
            pure ())
          (fun _err => pure ())

/-- JavaScript `v.toUpperCase()`: defined on strings, `TypeError`
otherwise. -/
def jsToUpperStr (v : JsVal) : Except JsErr Str :=
  match v with
  | .str s => .ok (jsToUpper s)
  | _ => .error .typeError

/-- JavaScript `v.toLowerCase()`: defined on strings, `TypeError`
otherwise. -/
def jsToLowerStr (v : JsVal) : Except JsErr Str :=
  match v with
  | .str s => .ok (s.map Char.toLower)
  | _ => .error .typeError

/-- JavaScript `v.map(...)` receiver handling: arrays yield their
elements, anything else is a `TypeError`. -/
def jsMapArr (v : JsVal) : Except JsErr (List JsVal) :=
  match v with
  | .arr l => .ok l
  | _ => .error .typeError

/-- Badge colour triple of the email report. -/
structure RiskColors where
  bg : Str
  text : Str
  border : Str

/-- `riskColors` table of `emailService.js` lines 28-34. -/
def riskColors (r : Str) : Option RiskColors :=
  if r = ("CRITICAL").data then
    some ⟨("#ffebee").data, ("#c62828").data, ("#ef9a9a").data⟩
  else if r = ("HIGH").data then
    some ⟨("#fff3e0").data, ("#ef6c00").data, ("#ffcc80").data⟩
  else if r = ("MEDIUM").data then
    some ⟨("#fffde7").data, ("#fbc02d").data, ("#fff59d").data⟩
  else if r = ("LOW").data then
    some ⟨("#e8f5e9").data, ("#2e7d32").data, ("#a5d6a7").data⟩
  else if r = ("DEFAULT").data then
    some ⟨("#f5f5f5").data, ("#616161").data, ("#e0e0e0").data⟩
  else none

/-- `riskColors.DEFAULT` fallback. -/
def riskColorsDefault : RiskColors :=
  ⟨("#f5f5f5").data, ("#616161").data, ("#e0e0e0").data⟩

/-- One key-change list item of the email body
(`emailService.js` lines 128-132). -/
def renderKeyChange (change : JsVal) : Str :=
  (lit ("\n              <li style=\"padding: 10px; margin-bottom: 8px; background: #fff; border: 1px solid #edf2f7; border-radius: 6px; font-size: 13px; color: #4a5568;\">\n                "))
  ++ JsVal.jsToStr change
  ++ (lit ("\n              </li>\n            "))

/-- One step list item inside a test-case row
(`emailService.js` line 188). -/
def renderEmailStep (step : JsVal) : Str :=
  (lit ("<li style=\"margin-bottom: 4px;\">"))
  ++ JsVal.jsToStr step
  ++ (lit ("</li>"))

/-- One test-case table row of the email body
(`emailService.js` lines 177-195). -/
def renderEmailTestRow (tc : JsVal) : Except JsErr Str := do
  let priV ← tc.getProp (lit ("priority"))
  let priLower ← jsToLowerStr (JsVal.jsOr priV (.str (lit ("low"))))
  let priV2 ← tc.getProp (lit ("priority"))
  let priDisp := JsVal.jsOr priV2 (.str (lit ("LOW")))
  let titleV ← tc.getProp (lit ("title"))
  let stepsV ← tc.getProp (lit ("steps"))
  let stepsL ← jsMapArr (JsVal.jsOr stepsV (.arr []))
  let stepsHtml := (stepsL.map renderEmailStep).flatten
  let expectedV ← tc.getProp (lit ("expectedResult"))
  Except.ok (
    (lit ("\n                <tr>\n                  <td style=\"vertical-align: top;\">\n                    <span class=\"priority-badge priority-"))
    ++ priLower
    ++ (lit ("\">\n                      "))
    ++ JsVal.jsToStr priDisp
    ++ (lit ("\n                    </span>\n                  </td>\n                  <td style=\"vertical-align: top;\">\n                    <div style=\"font-weight: 700; color: #2d3748; margin-bottom: 8px;\">"))
    ++ JsVal.jsToStr titleV
    ++ (lit ("</div>\n                    <div style=\"font-size: 11px; color: #718096; margin-bottom: 4px; text-transform: uppercase; font-weight: 600;\">Steps to execute:</div>\n                    <ol style=\"margin: 0; padding-left: 18px; font-size: 12px; color: #4a5568;\">\n                      "))
    ++ stepsHtml
    ++ (lit ("\n                    </ol>\n                  </td>\n                  <td style=\"vertical-align: top; color: #2e7d32; font-weight: 500;\">\n                    "))
    ++ JsVal.jsToStr expectedV
    ++ (lit ("\n                  </td>\n                </tr>\n              ")))

/-- Report-compiler HTML body of `sendImpactEmail`
(`emailService.js` lines 28-211): risk badge colours, then the full
template with the interpolated PR metadata, analysis fields and
test-case table; `today` stands for `new Date().toLocaleDateString()`. -/
def buildImpactEmailHtml (pr analysis testCases : JsVal) (today : Str) :
    Except JsErr Str := do
  let riskV ← analysis.getProp (lit ("risk"))
  let scoreD := JsVal.jsOr (riskV.getPropOpt (lit ("score")))
    (.str (lit ("DEFAULT")))
  let risk ← jsToUpperStr scoreD
  let colors := (riskColors risk).getD riskColorsDefault
  let prNum ← pr.getProp (lit ("number"))
  let baseV ← pr.getProp (lit ("base"))
  let repoV ← baseV.getProp (lit ("repo"))
  let repoNameV ← repoV.getProp (lit ("name"))
  let riskV2 ← analysis.getProp (lit ("risk"))
  let reasoningV := JsVal.jsOr (riskV2.getPropOpt (lit ("reasoning")))
    (.str (lit ("No details provided.")))
  let titleV ← pr.getProp (lit ("title"))
  let mergedV ← pr.getProp (lit ("merged"))
  let headV ← pr.getProp (lit ("head"))
  let headRefV ← headV.getProp (lit ("ref"))
  let baseV2 ← pr.getProp (lit ("base"))
  let baseRefV ← baseV2.getProp (lit ("ref"))
  let kcV ← analysis.getProp (lit ("keyChanges"))
  let kcL ← jsMapArr (JsVal.jsOr kcV (.arr []))
  let kcHtml := (kcL.map renderKeyChange).flatten
  let td ← analysis.getProp (lit ("technicalDetails"))
  let apiI := JsVal.jsOr (td.getPropOpt (lit ("API Impact")))
    (.str (lit ("No significant impact detected.")))
  let dbI := JsVal.jsOr (td.getPropOpt (lit ("Database Impact")))
    (.str (lit ("No significant impact detected.")))
  let logicI := JsVal.jsOr (td.getPropOpt (lit ("Logic Impact")))
    (.str (lit ("No significant impact detected.")))
  let secI := JsVal.jsOr (td.getPropOpt (lit ("Security Impact")))
    (.str (lit ("No significant impact detected.")))
  let tcsV ← testCases.getProp (lit ("testCases"))
  let tcsL ← jsMapArr (JsVal.jsOr tcsV (.arr []))
  let rows ← tcsL.mapM renderEmailTestRow
  let rowsHtml := rows.flatten
  let htmlUrlV ← pr.getProp (lit ("html_url"))
  Except.ok (
    (lit ("\n    <!DOCTYPE html>\n    <html>\n    <head>\n      <meta charset=\"utf-8\">\n      <style>\n        body \x7b font-family: \x27Segoe UI\x27, Roboto, Helvetica, Arial, sans-serif; background-color: #f6f9fc; margin: 0; padding: 20px; \x7d\n        .container \x7b max-width: 650px; margin: 0 auto; background: #ffffff; border-radius: 12px; overflow: hidden; box-shadow: 0 4px 6px rgba(0,0,0,0.05); border: 1px solid #e6e9ef; \x7d\n        .header \x7b background: linear-gradient(135deg, #1a237e 0%, #3f51b5 100%); color: #ffffff; padding: 30px 40px; text-align: left; \x7d\n        .header h1 \x7b margin: 0; font-size: 24px; font-weight: 600; letter-spacing: -0.5px; \x7d\n        .header p \x7b margin: 8px 0 0; opacity: 0.8; font-size: 14px; \x7d\n        \n        .content \x7b padding: 30px 40px; \x7d\n        \n        .section-title \x7b font-size: 13px; text-transform: uppercase; color: #718096; font-weight: 700; letter-spacing: 1px; margin-bottom: 16px; border-bottom: 1px solid #edf2f7; padding-bottom: 8px; display: flex; align-items: center; \x7d\n        .section-title span \x7b margin-right: 8px; \x7d\n        \n        .risk-card \x7b background-color: "))
    ++ colors.bg
    ++ (lit ("; border: 1px solid "))
    ++ colors.border
    ++ (lit ("; border-radius: 8px; padding: 20px; margin-bottom: 30px; \x7d\n        .risk-badge \x7b display: inline-block; padding: 4px 12px; border-radius: 20px; background-color: "))
    ++ colors.text
    ++ (lit ("; color: #ffffff; font-size: 12px; font-weight: 700; margin-bottom: 10px; \x7d\n        .risk-score \x7b font-size: 20px; font-weight: 700; color: "))
    ++ colors.text
    ++ (lit ("; margin: 0 0 8px; \x7d\n        .risk-reasoning \x7b font-size: 14px; color: #4a5568; line-height: 1.5; margin: 0; \x7d\n        \n        .info-grid \x7b display: grid; grid-template-columns: 1fr 1fr; gap: 20px; margin-bottom: 30px; \x7d\n        .info-item \x7b background: #f8fafc; padding: 15px; border-radius: 8px; border: 1px solid #edf2f7; \x7d\n        .info-label \x7b font-size: 11px; color: #718096; text-transform: uppercase; font-weight: 600; margin-bottom: 4px; \x7d\n        .info-value \x7b font-size: 14px; color: #2d3748; font-weight: 500; \x7d\n        .info-value code \x7b background: #e2e8f0; padding: 2px 4px; border-radius: 4px; font-size: 12px; \x7d\n\n        .impact-list \x7b list-style: none; padding: 0; margin: 0 0 30px; \x7d\n        .impact-item \x7b display: flex; align-items: flex-start; margin-bottom: 16px; padding: 12px; background: #fff; border-radius: 8px; border: 1px solid #edf2f7; \x7d\n        .impact-icon \x7b font-size: 20px; margin-right: 15px; min-width: 24px; text-align: center; \x7d\n        .impact-content h4 \x7b margin: 0 0 4px; font-size: 14px; color: #2d3748; \x7d\n        .impact-content p \x7b margin: 0; font-size: 13px; color: #718096; line-height: 1.4; \x7d\n\n        .test-table \x7b width: 100%; border-collapse: separate; border-spacing: 0; margin-bottom: 20px; border: 1px solid #edf2f7; border-radius: 8px; overflow: hidden; \x7d\n        .test-table th \x7b background: #f8fafc; text-align: left; padding: 12px 15px; font-size: 12px; color: #718096; text-transform: uppercase; font-weight: 700; border-bottom: 1px solid #edf2f7; \x7d\n        .test-table td \x7b padding: 12px 15px; font-size: 13px; color: #2d3748; border-bottom: 1px solid #edf2f7; background: #ffffff; \x7d\n        .test-table tr:last-child td \x7b border-bottom: none; \x7d\n        \n        .priority-badge \x7b font-size: 10px; font-weight: 700; padding: 2px 8px; border-radius: 10px; text-transform: uppercase; \x7d\n        .priority-high \x7b background: #ffebee; color: #c62828; \x7d\n        .priority-medium \x7b background: #fff3e0; color: #ef6c00; \x7d\n        .priority-low \x7b background: #e8f5e9; color: #2e7d32; \x7d\n\n        .btn \x7b display: inline-block; padding: 12px 24px; background-color: #3f51b5; color: #ffffff !important; text-decoration: none; border-radius: 6px; font-size: 14px; font-weight: 600; margin-top: 20px; box-shadow: 0 2px 4px rgba(63, 81, 181, 0.2); \x7d\n        .footer \x7b padding: 20px 40px; background: #f8fafc; border-top: 1px solid #edf2f7; text-align: center; font-size: 12px; color: #a0aec0; \x7d\n      </style>\n    </head>\n    <body>\n      <div class=\"container\">\n        <div class=\"header\">\n          <h1>ImpactX AI Analysis</h1>\n          <p>Automated Assessment for PR #"))
    ++ JsVal.jsToStr prNum
    ++ (lit (" &bull; "))
    ++ JsVal.jsToStr repoNameV
    ++ (lit ("</p>\n        </div>\n        \n        <div class=\"content\">\n          <div class=\"risk-card\">\n            <span class=\"risk-badge\">"))
    ++ risk
    ++ (lit (" RISK</span>\n            <p class=\"risk-reasoning\">"))
    ++ JsVal.jsToStr reasoningV
    ++ (lit ("</p>\n          </div>\n\n          <div class=\"section-title\"><span>📋</span> Pull Request Details</div>\n          <div style=\"display: table; width: 100%; margin-bottom: 30px;\">\n            <div style=\"display: table-row;\">\n              <div style=\"display: table-cell; width: 50%; padding-right: 10px;\">\n                <div class=\"info-item\">\n                  <div class=\"info-label\">Title</div>\n                  <div class=\"info-value\">"))
    ++ JsVal.jsToStr titleV
    ++ (lit ("</div>\n                </div>\n              </div>\n              <div style=\"display: table-cell; width: 50%; padding-left: 10px;\">\n                <div class=\"info-item\">\n                  <div class=\"info-label\">Status</div>\n                  <div class=\"info-value\">"))
    ++ (if mergedV.truthy then ("✅ Merged").data else ("🕒 Open").data)
    ++ (lit ("</div>\n                </div>\n              </div>\n            </div>\n            <div style=\"display: table-row;\">\n              <div style=\"display: table-cell; width: 100%; padding-top: 15px;\" colspan=\"2\">\n                <div class=\"info-item\">\n                  <div class=\"info-label\">Proposed Change</div>\n                  <div class=\"info-value\"><code>"))
    ++ JsVal.jsToStr headRefV
    ++ (lit ("</code> &rarr; <code>"))
    ++ JsVal.jsToStr baseRefV
    ++ (lit ("</code></div>\n                </div>\n              </div>\n            </div>\n          </div>\n\n          <div class=\"section-title\"><span>📝</span> Key Changes</div>\n          <ul style=\"padding: 0; margin: 0 0 30px; list-style: none;\">\n            "))
    ++ kcHtml
    ++ (lit ("\n          </ul>\n\n          <div class=\"section-title\"><span>🛠</span> Technical Impacts</div>\n          <div class=\"impact-list\">\n            <div class=\"impact-item\">\n              <div class=\"impact-icon\">🔌</div>\n              <div class=\"impact-content\">\n                <h4>API & Integration</h4>\n                <p>"))
    ++ JsVal.jsToStr apiI
    ++ (lit ("</p>\n              </div>\n            </div>\n            <div class=\"impact-item\">\n              <div class=\"impact-icon\">🗄</div>\n              <div class=\"impact-content\">\n                <h4>Database & Persistence</h4>\n                <p>"))
    ++ JsVal.jsToStr dbI
    ++ (lit ("</p>\n              </div>\n            </div>\n            <div class=\"impact-item\">\n              <div class=\"impact-icon\">🧠</div>\n              <div class=\"impact-content\">\n                <h4>Business Logic</h4>\n                <p>"))
    ++ JsVal.jsToStr logicI
    ++ (lit ("</p>\n              </div>\n            </div>\n            <div class=\"impact-item\">\n              <div class=\"impact-icon\">🛡</div>\n              <div class=\"impact-content\">\n                <h4>Security & Compliance</h4>\n                <p>"))
    ++ JsVal.jsToStr secI
    ++ (lit ("</p>\n              </div>\n            </div>\n          </div>\n\n          <div class=\"section-title\"><span>🧪</span> Suggested Test Cases</div>\n          <table class=\"test-table\">\n            <thead>\n              <tr>\n                <th style=\"width: 80px;\">Priority</th>\n                <th>Test Scenario</th>\n                <th>Expected Outcome</th>\n              </tr>\n            </thead>\n            <tbody>\n              "))
    ++ rowsHtml
    ++ (lit ("\n            </tbody>\n          </table>\n\n          <div style=\"text-align: center;\">\n            <a href=\""))
    ++ JsVal.jsToStr htmlUrlV
    ++ (lit ("\" class=\"btn\">Review Changes on GitHub</a>\n          </div>\n        </div>\n        \n        <div class=\"footer\">\n          This report was generated by <strong>ImpactX Standalone Agent</strong>.<br>\n          DeepMind AI Impact Analysis &bull; "))
    ++ today
    ++ (lit ("\n        </div>\n      </div>\n    </body>\n    </html>\n  ")))

/-- Email subject line of `sendImpactEmail`
(`emailService.js` lines 25-26). -/
def buildEmailSubject (pr : JsVal) : Except JsErr Str := do
  let mergedV ← pr.getProp (("merged").data)
  let statusStr := if mergedV.truthy then ("Merged to").data
    else ("Analysis for").data
  let prNum ← pr.getProp (("number").data)
  let baseV ← pr.getProp (("base").data)
  let baseRefV ← baseV.getProp (("ref").data)
  Except.ok ((("🚀 ImpactX Report: PR #").data) ++ JsVal.jsToStr prNum
    ++ ((" ").data) ++ statusStr ++ ((" ").data) ++ JsVal.jsToStr baseRefV)

/-- `sendImpactEmail` (`emailService.js` lines 7-224): silent no-op on
incomplete email configuration; the subject and body are built outside
the `try` (so a property-access `TypeError` there propagates), while
the actual `sendMail` failure is caught and only logged. -/
def sendImpactEmail (cfg : Config) (env : Env) (pr analysis testCases : JsVal)
    (today : Str) : AgentM Unit := do
  if !envTruthy cfg.EMAIL_HOST || !envTruthy cfg.EMAIL_USER ||
      !envTruthy cfg.EMAIL_PASS || !envTruthy cfg.EMAIL_TO then
    pure ()
  else do
    let _subject ← liftE (buildEmailSubject pr)
    let _html ← liftE (buildImpactEmailHtml pr analysis testCases today)
    tryCatch (callNet .emailSend env.emailSend) (fun _err => pure ())

/-- Allowed webhook actions of the event gate (`agent.js` line 23). -/
def allowedActions : List Str :=
  [("opened").data, ("synchronize").data, ("reopened").data, ("closed").data]

/-- JavaScript `allowedActions.includes(action)`: strict equality
against each entry, so only string values can match. -/
def jsIncludesStr (l : List Str) (v : JsVal) : Bool :=
  match v with
  | .str s => l.any fun t => t == s
  | _ => false

/-- Terminal value of one invocation (`agent.js` lines 26/32/38 and
130-134): `skipped`, or `success` carrying `analysis.risk?.score` and
`testCases.testCases?.length || 0`. -/
inductive AgentResult where
  | skipped
  | success (risk : JsVal) (testCaseCount : JsVal)

/-- Close-without-merge predicate of the gate (`agent.js` lines
29-33): for a `closed` action the `merged` flag must be truthy;
reading the flag on a missing `pull_request` raises. -/
def closedUnmergedCheck (action pull_request : JsVal) : AgentM Bool :=
  if JsVal.strEq action (("closed").data) then do
    let merged ← liftE (pull_request.getProp (("merged").data))
    pure (!merged.truthy)
  else pure false

/-- Ticket-key detection and optional context fetch of the orchestrator
(`agent.js` lines 74-106): on a key match the key is upper-cased and,
when the ticket service is fully configured, the context fetch is
attempted inside its own `try` whose `catch` proceeds without
context. -/
def ticketContextStage (cfg : Config) (env : Env) (titleV headRefV bodyV : JsVal) :
    AgentM (Option Str × Option TicketInfo) :=
  match jsMatchJiraKey (jiraSearchString titleV headRefV bodyV) with
  | some m => do
    let jiraKey := jsToUpper m
    if envTruthy cfg.jiraUrl && envTruthy cfg.jiraToken &&
        envTruthy cfg.jiraEmail then do
      let t ← tryCatch
        (getJiraTicket env (cfg.jiraUrl.getD []) (cfg.jiraEmail.getD [])
          (cfg.jiraToken.getD []) jiraKey)
        (fun _err => pure none)
      pure (some jiraKey, t)
    else pure (some jiraKey, (none : Option TicketInfo))
  | none => pure ((none : Option Str), (none : Option TicketInfo))

/-- `processAgentTask` (`agent.js` lines 14-140): the event gate, the
configuration check, ticket-key detection and optional context fetch,
the mandatory diff/tree/model/parse pipeline, the two isolated sinks
and the terminal result.  `jp` abstracts the runtime `JSON.parse`
builtin; the outer `try`/`catch` logs and rethrows, which is the
identity on outcomes. -/
def processAgentTask (jp : Str → Except JsErr JsVal) (cfg : Config) (env : Env)
    (today : Str) (payload : JsVal) : AgentM AgentResult := do
  let action ← liftE (payload.getProp (("action").data))
  let pull_request ← liftE (payload.getProp (("pull_request").data))
  let repository ← liftE (payload.getProp (("repository").data))
  -- preliminary logging (lines 18-20) only uses optional chaining
  if !jsIncludesStr allowedActions action then
    pure AgentResult.skipped
  else do
    let skipUnmerged ← closedUnmergedCheck action pull_request
    if skipUnmerged then pure AgentResult.skipped
    else do
      let baseV ← liftE (pull_request.getProp (("base").data))
      let baseBranch ← liftE (baseV.getProp (("ref").data))
      if !JsVal.strEq baseBranch (("master").data) &&
          !JsVal.strEq baseBranch (("main").data) then
        pure AgentResult.skipped
      else do
        let ownerV ← liftE (repository.getProp (("owner").data))
        let repoOwner ← liftE (ownerV.getProp (("login").data))
        let repoName ← liftE (repository.getProp (("name").data))
        let baseV2 ← liftE (pull_request.getProp (("base").data))
        let _sourceBranch ← liftE (baseV2.getProp (("ref").data))
        let headV ← liftE (pull_request.getProp (("head").data))
        let compareBranch ← liftE (headV.getProp (("ref").data))
        let _prNumber ← liftE (pull_request.getProp (("number").data))
        if !envTruthy cfg.githubToken then
          throw (.thrown (("Missing GITHUB_TOKEN in environment variables").data))
        else if !envTruthy cfg.groqKey then
          throw (.thrown (("Missing GROQ_API_KEY in environment variables").data))
        else do
          -- body of the `try` whose `catch` rethrows
          let titleV ← liftE (pull_request.getProp (("title").data))
          let bodyV ← liftE (pull_request.getProp (("body").data))
          let state ← ticketContextStage cfg env titleV compareBranch bodyV
          let diff ← callNet .diffFetch env.diffResult
          let tree ← callNet .treeFetch env.treeResult
          let analysisJson ← summarizeImpact cfg env diff tree state.2
          let analysis ← liftE (jp analysisJson)
          let testCasesJson ← generateTestCases cfg env diff tree repoOwner repoName
          let testCases ← liftE (jp testCasesJson)
          handleJiraPosting cfg env pull_request analysis testCases action state.1
          sendImpactEmail cfg env pull_request analysis testCases today
          let riskV ← liftE (analysis.getProp (("risk").data))
          let risk := riskV.getPropOpt (("score").data)
          let tcV ← liftE (testCases.getProp (("testCases").data))
          let count := JsVal.jsOr (jsLengthOpt tcV) (.num 0)
          pure (AgentResult.success risk count)

/-- Border-freeness of a separator: no proper nonempty suffix equals a
prefix.  The diff marker has this property, which makes split-then-join
invert cleanly. -/
def BorderFree (sep : Str) : Prop :=
  ∀ k < sep.length, 0 < k → sep.drop k ≠ sep.take (sep.length - k)

/-- Gate failure case 1: the action is outside the allowed set. -/
def gateFailsAction (action : JsVal) : Prop :=
  jsIncludesStr allowedActions action = false

/-- Gate failure case 2: a close event whose `merged` flag is falsy
(the flag being readable, i.e. `pull_request` present). -/
def gateFailsMerge (action pull_request : JsVal) : Prop :=
  action = .str (("closed").data) ∧
  ∃ m, pull_request.getProp (("merged").data) = .ok m ∧ m.truthy = false

/-- Gate failure case 3: the event passes the first two predicates but
its (readable) base branch is neither `master` nor `main`. -/
def gateFailsBase (action pull_request : JsVal) : Prop :=
  jsIncludesStr allowedActions action = true ∧
  (action = .str (("closed").data) →
    ∃ m, pull_request.getProp (("merged").data) = .ok m ∧ m.truthy = true) ∧
  ∃ b r, pull_request.getProp (("base").data) = .ok b ∧
    b.getProp (("ref").data) = .ok r ∧
    JsVal.strEq r (("master").data) = false ∧ JsVal.strEq r (("main").data) = false

/-- A payload the event gate rejects (`agent.js` lines 23-39), with the
fields each predicate reads being present. -/
def GateSkip (payload : JsVal) : Prop :=
  ∃ action pull_request repository,
    payload.getProp (("action").data) = .ok action ∧
    payload.getProp (("pull_request").data) = .ok pull_request ∧
    payload.getProp (("repository").data) = .ok repository ∧
    (gateFailsAction action ∨ gateFailsMerge action pull_request ∨
      gateFailsBase action pull_request)

/-- A `JSON.parse` model that maps the single response text `"{}"` to
the empty object (as the runtime builtin does) and fails elsewhere. -/
def jpEmptyObj : Str → Except JsErr JsVal := fun s =>
  if s = ("{}").data then .ok (.obj []) else .error (.thrown (("unexpected").data))

/-- A `JSON.parse` model that always yields `null`. -/
def jpNull : Str → Except JsErr JsVal := fun _ => .ok .null

/-- Fully unset configuration. -/
def cfgNone : Config :=
  { githubToken := none, groqKey := none, openRouterKey := none
    jiraUrl := none, jiraEmail := none, jiraToken := none
    EMAIL_HOST := none, EMAIL_PORT := none, EMAIL_USER := none
    EMAIL_PASS := none, EMAIL_TO := none }

/-- Configuration with only the two mandatory keys set. -/
def cfgBase : Config :=
  { githubToken := some (("t").data), groqKey := some (("g").data)
    openRouterKey := none
    jiraUrl := none, jiraEmail := none, jiraToken := none
    EMAIL_HOST := none, EMAIL_PORT := none, EMAIL_USER := none
    EMAIL_PASS := none, EMAIL_TO := none }

/-- Environment in which every external call succeeds, with `"{}"` as
both model responses. -/
def envEmptyObjs : Env :=
  { diffResult := .ok [], treeResult := .ok .null
    impactContent := .ok (("{}").data), testGenContent := .ok (("{}").data)
    ticketFetch := .ok (false, .null), jiraPost := .ok .null
    emailSend := .ok () }

/-- The first payload of the repository's own test suite
(`tests/agent.test.js`): `{action: 'opened', pull_request: {merged:
false}}`. -/
def payloadAgentTest1 : JsVal :=
  .obj [((("action").data), .str (("opened").data)),
        ((("pull_request").data), .obj [((("merged").data), .bool false)])]

/-- A fully populated pull-request payload targeting `master`. -/
def payloadFull : JsVal :=
  .obj [((("action").data), .str (("opened").data)),
        ((("pull_request").data), .obj
          [((("merged").data), .bool false),
           ((("number").data), .num 1),
           ((("title").data), .str (("t").data)),
           ((("body").data), .str []),
           ((("base").data), .obj [((("ref").data), .str (("master").data)),
             ((("repo").data), .obj [((("name").data), .str (("repo").data))])]),
           ((("head").data), .obj [((("ref").data), .str (("feature").data))]),
           ((("html_url").data), .str (("u").data))]),
        ((("repository").data), .obj
          [((("owner").data), .obj [((("login").data), .str (("org").data))]),
           ((("name").data), .str (("repo").data))])]

def prC8 : JsVal :=
  .obj [((("merged").data), .bool false),
        ((("number").data), .num 1),
        ((("title").data), .str (("t").data)),
        ((("base").data), .obj [((("ref").data), .str (("master").data)),
          ((("repo").data), .obj [((("name").data), .str (("repo").data))])]),
        ((("head").data), .obj [((("ref").data), .str (("feature").data))]),
        ((("html_url").data), .str (("u").data))]

def analysisC8 : JsVal :=
  .obj [((("risk").data), .obj [((("score").data), .str (("LOW").data)),
        ((("reasoning").data), .str (("r").data))])]

def testCasesC8 : JsVal :=
  .obj [((("testCases").data), .arr [.obj []])]

def exOk : Except JsErr Str → Str
  | .ok s => s
  | .error _ => []

/-- The row rendered for an empty test-case object. -/
def rowC8 : Str := exOk (renderEmailTestRow (.obj []))

def riskObjC8 : JsVal :=
  .obj [((("score").data), .str (("LOW").data)),
        ((("reasoning").data), .str (("r").data))]

def baseObjC8 : JsVal :=
  .obj [((("ref").data), .str (("master").data)),
        ((("repo").data), .obj [((("name").data), .str (("repo").data))])]

def repoObjC8 : JsVal := .obj [((("name").data), .str (("repo").data))]

def headObjC8 : JsVal := .obj [((("ref").data), .str (("feature").data))]

/-- A payload whose action is outside the allowed set. -/
def payloadSkip : JsVal := .obj [((("action").data), .str (("labeled").data))]

/-- Configuration with the mandatory keys and the ticket service set. -/
def cfgJira : Config :=
  { githubToken := some (("t").data), groqKey := some (("g").data)
    openRouterKey := none
    jiraUrl := some (("https://x.atlassian.net").data)
    jiraEmail := some (("e@x").data), jiraToken := some (("tok").data)
    EMAIL_HOST := none, EMAIL_PORT := none, EMAIL_USER := none
    EMAIL_PASS := none, EMAIL_TO := none }

/-- Environment in which everything succeeds except the ticket-comment
post, which throws. -/
def envPostFail : Env :=
  { diffResult := .ok [], treeResult := .ok .null
    impactContent := .ok (("{}").data), testGenContent := .ok (("{}").data)
    ticketFetch := .ok (false, .null)
    jiraPost := .error (.thrown (("boom").data))
    emailSend := .ok () }

/-- Environment in which the impact-model response is not valid JSON. -/
def envBadParse : Env :=
  { diffResult := .ok [], treeResult := .ok .null
    impactContent := .ok (("\x7b").data), testGenContent := .ok (("{}").data)
    ticketFetch := .ok (false, .null), jiraPost := .ok .null
    emailSend := .ok () }

/-- A fully populated payload whose title carries a ticket key. -/
def payloadKeyed : JsVal :=
  .obj [((("action").data), .str (("opened").data)),
        ((("pull_request").data), .obj
          [((("merged").data), .bool false),
           ((("number").data), .num 1),
           ((("title").data), .str (("PROJ-123 Fix").data)),
           ((("body").data), .str []),
           ((("base").data), .obj [((("ref").data), .str (("master").data)),
             ((("repo").data), .obj [((("name").data), .str (("repo").data))])]),
           ((("head").data), .obj [((("ref").data), .str (("feature").data))]),
           ((("html_url").data), .str (("u").data))]),
        ((("repository").data), .obj
          [((("owner").data), .obj [((("login").data), .str (("org").data))]),
           ((("name").data), .str (("repo").data))])]

/-- The ticket key matched in the keyed payload. -/
def mkC10 : Str :=
  (jsMatchJiraKey (jiraSearchString (.str (("PROJ-123 Fix").data))
    (.str (("feature").data)) (.str []))).getD []

/-- The host-part match of the configured ticket-service URL. -/
def hostC10 : Str × Str :=
  (jsMatchHttpHost (("https://x.atlassian.net").data)).getD ([], [])

/-- The comment body built for the keyed payload with empty model objects. -/
def cbC10 : Str :=
  exOk (buildJiraCommentBody (payloadKeyed.getPropOpt (("pull_request").data))
    (.obj []) (.obj []) (.str (("opened").data)))

theorem splitOnLF_congr (sep : Str) :
    ∀ fuel fuel' s, s.length ≤ fuel → s.length ≤ fuel' →
      splitOnLF sep fuel s = splitOnLF sep fuel' s := by
  intro fuel
  induction fuel with
  | zero =>
    intro fuel' s hs _
    have : s = [] := List.length_eq_zero.mp (Nat.le_zero.mp hs)
    subst this
    cases fuel' <;> rfl
  | succ fuel ih =>
    intro fuel' s hs hs'
    cases s with
    | nil => cases fuel' <;> rfl
    | cons c rest =>
      cases fuel' with
      | zero => simp at hs'
      | succ fuel' =>
        rw [splitOnLF, splitOnLF]
        by_cases hcond : sep.isPrefixOf (c :: rest) = true ∧ sep ≠ []
        · rw [if_pos hcond, if_pos hcond]
          have hlen : (List.drop (sep.length - 1) rest).length ≤ fuel := by
            simp only [List.length_drop]
            simp only [List.length_cons] at hs
            omega
          have hlen' : (List.drop (sep.length - 1) rest).length ≤ fuel' := by
            simp only [List.length_drop]
            simp only [List.length_cons] at hs'
            omega
          rw [ih fuel' _ hlen hlen']
        · rw [if_neg hcond, if_neg hcond]
          have hlen : rest.length ≤ fuel := by
            simp only [List.length_cons] at hs
            omega
          have hlen' : rest.length ≤ fuel' := by
            simp only [List.length_cons] at hs'
            omega
          rw [ih fuel' rest hlen hlen']

theorem splitOnLF_ne_nil (sep : Str) :
    ∀ fuel s, splitOnLF sep fuel s ≠ [] := by
  intro fuel
  induction fuel with
  | zero =>
    intro s
    cases s <;> simp [splitOnLF]
  | succ fuel ih =>
    intro s
    cases s with
    | nil => simp [splitOnLF]
    | cons c rest =>
      rw [splitOnLF]
      by_cases hcond : sep.isPrefixOf (c :: rest) = true ∧ sep ≠ []
      · rw [if_pos hcond]
        simp
      · rw [if_neg hcond]
        cases hs : splitOnLF sep fuel rest with
        | nil => exact absurd hs (ih rest)
        | cons a t => simp [hs]

theorem splitOnLF_head_prefix (sep : Str) :
    ∀ fuel s a t, splitOnLF sep fuel s = a :: t → a <+: s := by
  intro fuel
  induction fuel with
  | zero =>
    intro s a t hs
    cases s with
    | nil =>
      rw [splitOnLF] at hs
      cases hs
      exact List.nil_prefix
    | cons c rest =>
      rw [splitOnLF] at hs
      cases hs
      exact List.prefix_refl _
  | succ fuel ih =>
    intro s a t hs
    cases s with
    | nil =>
      rw [splitOnLF] at hs
      cases hs
      exact List.nil_prefix
    | cons c rest =>
      rw [splitOnLF] at hs
      by_cases hcond : sep.isPrefixOf (c :: rest) = true ∧ sep ≠ []
      · rw [if_pos hcond] at hs
        cases hs
        exact List.nil_prefix
      · rw [if_neg hcond] at hs
        cases ha : splitOnLF sep fuel rest with
        | nil => exact absurd ha (splitOnLF_ne_nil sep fuel rest)
        | cons a' t' =>
          rw [ha] at hs
          simp only [List.modifyHead] at hs
          cases hs
          exact List.cons_prefix_cons.mpr ⟨rfl, ih rest a' _ ha⟩

theorem prefix_containsSub (pat z : Str) (h : pat <+: z) (hne : pat ≠ []) :
    containsSub pat z = true := by
  cases z with
  | nil => simp_all [List.prefix_nil]
  | cons c rest =>
    rw [containsSub]
    simp [List.isPrefixOf_iff_prefix, h]

theorem containsSub_false_not_prefix (pat : Str) (c : Char) (rest : Str)
    (h : containsSub pat (c :: rest) = false) :
    ¬ pat <+: (c :: rest) ∧ containsSub pat rest = false := by
  rw [containsSub] at h
  simp only [Bool.or_eq_false_iff] at h
  exact ⟨fun hp => by simp [List.isPrefixOf_iff_prefix.mpr hp] at h, h.2⟩

theorem splitOnLF_segments_free (sep : Str) (hne : sep ≠ []) :
    ∀ fuel s, s.length ≤ fuel →
      ∀ seg ∈ splitOnLF sep fuel s, containsSub sep seg = false := by
  intro fuel
  induction fuel with
  | zero =>
    intro s hs seg hseg
    have : s = [] := List.length_eq_zero.mp (Nat.le_zero.mp hs)
    subst this
    rw [splitOnLF] at hseg
    simp only [List.mem_singleton] at hseg
    subst hseg
    rw [containsSub]
    simpa using hne
  | succ fuel ih =>
    intro s hs seg hseg
    cases s with
    | nil =>
      rw [splitOnLF] at hseg
      simp only [List.mem_singleton] at hseg
      subst hseg
      rw [containsSub]
      simpa using hne
    | cons c rest =>
      simp only [List.length_cons] at hs
      rw [splitOnLF] at hseg
      by_cases hcond : sep.isPrefixOf (c :: rest) = true ∧ sep ≠ []
      · rw [if_pos hcond] at hseg
        rcases List.mem_cons.mp hseg with rfl | hmem
        · rw [containsSub]
          simpa using hne
        · refine ih _ ?_ seg hmem
          simp only [List.length_drop]
          omega
      · rw [if_neg hcond] at hseg
        cases ha : splitOnLF sep fuel rest with
        | nil => exact absurd ha (splitOnLF_ne_nil sep fuel rest)
        | cons a t =>
          rw [ha] at hseg
          simp only [List.modifyHead] at hseg
          have hrest : rest.length ≤ fuel := by omega
          rcases List.mem_cons.mp hseg with rfl | hmem
          · rw [containsSub]
            have hfa : containsSub sep a = false :=
              ih rest hrest a (ha ▸ List.mem_cons_self a t)
            have hnp : ¬ sep.isPrefixOf (c :: a) = true := by
              intro hp
              have h1 : sep <+: c :: a := List.isPrefixOf_iff_prefix.mp hp
              have h2 : a <+: rest := splitOnLF_head_prefix sep fuel rest a t ha
              have h3 : sep <+: c :: rest :=
                h1.trans (List.cons_prefix_cons.mpr ⟨rfl, h2⟩)
              exact hcond ⟨List.isPrefixOf_iff_prefix.mpr h3, hne⟩
            simp [hfa, hnp]
          · exact ih rest hrest seg (ha ▸ List.mem_cons_of_mem a hmem)

theorem borderFree_diffMarker : BorderFree diffMarker := by
  unfold BorderFree
  decide

theorem no_overlap_prefix (sep : Str) (hne : sep ≠ []) (hb : BorderFree sep)
    (c : Char) (x' y : Str) (hfree : containsSub sep (c :: x') = false) :
    ¬ sep <+: (c :: x') ++ (sep ++ y) := by
  intro hp
  by_cases hlen : sep.length ≤ (c :: x').length
  · have h1 : sep = List.take sep.length ((c :: x') ++ (sep ++ y)) :=
      List.prefix_iff_eq_take.mp hp
    rw [List.take_append_of_le_length hlen] at h1
    have h2 : sep <+: (c :: x') := h1 ▸ List.take_prefix sep.length (c :: x')
    rw [prefix_containsSub sep (c :: x') h2 hne] at hfree
    cases hfree
  · push_neg at hlen
    have hL : (c :: x') <+: sep :=
      List.prefix_of_prefix_length_le (List.prefix_append _ _) hp (le_of_lt hlen)
    obtain ⟨u, hu⟩ := hL
    have hu' : (c :: x') ++ u <+: (c :: x') ++ (sep ++ y) := hu ▸ hp
    have husep : u <+: sep ++ y := (List.prefix_append_right_inj _).mp hu'
    have hulen : u.length = sep.length - (c :: x').length := by
      have := congrArg List.length hu
      simp only [List.length_append] at this
      omega
    have hule : u.length ≤ sep.length := by omega
    have h3 : u = List.take u.length (sep ++ y) := List.prefix_iff_eq_take.mp husep
    rw [List.take_append_of_le_length hule] at h3
    have h4 : List.drop (c :: x').length sep = u := by
      rw [← hu]
      exact List.drop_left (c :: x') u
    have h5 : sep.drop (c :: x').length = sep.take (sep.length - (c :: x').length) := by
      rw [h4, ← hulen, ← h3]
    exact hb (c :: x').length hlen (by simp) h5

theorem splitOnLF_of_free (sep : Str) :
    ∀ fuel x, containsSub sep x = false → splitOnLF sep fuel x = [x] := by
  intro fuel
  induction fuel with
  | zero =>
    intro x _
    cases x <;> rw [splitOnLF]
  | succ fuel ih =>
    intro x hfree
    cases x with
    | nil => rw [splitOnLF]
    | cons c rest =>
      obtain ⟨hnp, hrest⟩ := containsSub_false_not_prefix sep c rest hfree
      rw [splitOnLF, if_neg (fun h12 => hnp (List.isPrefixOf_iff_prefix.mp h12.1))]
      rw [ih rest hrest]
      rfl

theorem splitOnLF_append_sep (sep : Str) (hne : sep ≠ []) (hb : BorderFree sep) :
    ∀ fuel x y, (x ++ sep ++ y).length ≤ fuel → containsSub sep x = false →
      splitOnLF sep fuel (x ++ sep ++ y) = x :: splitOnL sep y := by
  intro fuel
  induction fuel with
  | zero =>
    intro x y hlen _
    exfalso
    have : sep.length = 0 := by
      simp only [List.length_append] at hlen
      omega
    exact hne (List.length_eq_zero.mp this)
  | succ fuel ih =>
    intro x y hlen hfree
    cases x with
    | nil =>
      simp only [List.nil_append]
      obtain ⟨s0, st, hsep⟩ := List.exists_cons_of_ne_nil hne
      · have hform : sep ++ y = s0 :: (st ++ y) := by rw [hsep]; rfl
        rw [hform, splitOnLF, if_pos ?hc]
        case hc =>
          constructor
          · rw [← hform]
            exact List.isPrefixOf_iff_prefix.mpr (List.prefix_append sep y)
          · exact hne
        have hdrop : List.drop (sep.length - 1) (st ++ y) = y := by
          apply List.drop_left'
          rw [hsep]
          simp
        rw [hdrop, splitOnL]
        congr 1
        apply splitOnLF_congr
        · have hslen : sep.length ≠ 0 := fun h0 => hne (List.length_eq_zero.mp h0)
          simp only [List.nil_append, List.length_append] at hlen
          omega
        · exact le_refl _
    | cons c x' =>
      obtain ⟨hnp, hx'⟩ := containsSub_false_not_prefix sep c x' hfree
      have hassoc : (c :: x') ++ sep ++ y = c :: (x' ++ sep ++ y) := by simp
      rw [hassoc, splitOnLF, if_neg ?hc]
      case hc =>
        intro h12
        have hpx := List.isPrefixOf_iff_prefix.mp h12.1
        rw [show c :: (x' ++ sep ++ y) = (c :: x') ++ (sep ++ y) by simp] at hpx
        exact no_overlap_prefix sep hne hb c x' y hfree hpx
      have hlen' : (x' ++ sep ++ y).length ≤ fuel := by
        rw [hassoc] at hlen
        simp only [List.length_cons] at hlen
        omega
      rw [ih x' y hlen' hx']
      rfl

theorem splitOnL_append_sep (sep : Str) (hne : sep ≠ []) (hb : BorderFree sep)
    (x y : Str) (hfree : containsSub sep x = false) :
    splitOnL sep (x ++ sep ++ y) = x :: splitOnL sep y :=
  splitOnLF_append_sep sep hne hb _ x y (le_refl _) hfree

theorem splitOnL_intercalate (sep : Str) (hne : sep ≠ []) (hb : BorderFree sep) :
    ∀ l : List Str, l ≠ [] → (∀ seg ∈ l, containsSub sep seg = false) →
      splitOnL sep (List.intercalate sep l) = l := by
  intro l
  induction l with
  | nil => intro h _; exact absurd rfl h
  | cons x t ih =>
    intro _ hfree
    cases t with
    | nil =>
      have hx : List.intercalate sep [x] = x := by simp [List.intercalate]
      rw [hx, splitOnL]
      exact splitOnLF_of_free sep x.length x (hfree x (List.mem_singleton.mpr rfl))
    | cons y t' =>
      have hic : List.intercalate sep (x :: y :: t') =
          x ++ sep ++ List.intercalate sep (y :: t') := by
        simp [List.intercalate, List.intersperse_cons_cons]
      rw [hic, splitOnL_append_sep sep hne hb x _ (hfree x (List.mem_cons_self x _))]
      rw [ih (by simp) (fun seg hseg => hfree seg (List.mem_cons_of_mem x hseg))]

/-- C2: self-reference filtering is idempotent — splitting on the
per-file diff marker, dropping segments that reference the
orchestrator's own directory, and rejoining with the same marker is a
no-op the second time: `filter(filter(diff)) = filter(diff)`. -/
theorem selfRefFilter_idem (d : Str) :
    selfRefFilter (selfRefFilter d) = selfRefFilter d := by
  have hne : diffMarker ≠ [] := by decide
  have hfree : ∀ seg ∈ (splitOnL diffMarker d).filter keepSegment,
      containsSub diffMarker seg = false := fun seg hseg =>
    splitOnLF_segments_free diffMarker hne d.length d (le_refl _) seg
      (List.mem_of_mem_filter hseg)
  rcases eq_or_ne ((splitOnL diffMarker d).filter keepSegment) [] with hc | hc
  · unfold selfRefFilter
    rw [hc]
    decide
  · unfold selfRefFilter
    rw [splitOnL_intercalate diffMarker hne borderFree_diffMarker _ hc hfree,
        List.filter_eq_self.mpr (fun a ha => List.of_mem_filter ha)]


/-- Evaluation of one monadic bind of the pipeline monad on a given
trace state. -/
theorem run_bind {α β : Type} (m : AgentM α) (f : α → AgentM β) (s : List NetCall) :
    (ExceptT.run (m >>= f)).run s =
      match (ExceptT.run m).run s with
      | (.ok a, s') => (ExceptT.run (f a)).run s'
      | (.error e, s') => (.error e, s') := by
  rw [ExceptT.run_bind, StateT.run_bind]
  cases hm : (ExceptT.run m).run s with
  | mk r s' =>
    cases r with
    | ok a => rfl
    | error e => rfl

/-- Evaluation of `pure`. -/
theorem run_pure {α : Type} (a : α) (s : List NetCall) :
    (ExceptT.run (pure a : AgentM α)).run s = (.ok a, s) := rfl

/-- Evaluation of `throw`. -/
theorem run_throw {α : Type} (e : JsErr) (s : List NetCall) :
    (ExceptT.run (throw e : AgentM α)).run s = (.error e, s) := rfl

/-- Evaluation of `liftE`. -/
theorem run_liftE {α : Type} (x : Except JsErr α) (s : List NetCall) :
    (ExceptT.run (liftE x)).run s =
      (match x with | .ok a => (.ok a, s) | .error e => (.error e, s) :
        Except JsErr α × List NetCall) := by
  cases x <;> rfl

/-- Evaluation of `callNet`. -/
theorem run_callNet {α : Type} (c : NetCall) (out : Except JsErr α) (s : List NetCall) :
    (ExceptT.run (callNet c out)).run s =
      (match out with
        | .ok a => (.ok a, s ++ [c])
        | .error e => (.error e, s ++ [c]) : Except JsErr α × List NetCall) := by
  cases out <;> rfl

/-- Evaluation of `tryCatch`. -/
theorem run_tryCatch {α : Type} (m : AgentM α) (h : JsErr → AgentM α) (s : List NetCall) :
    (ExceptT.run (tryCatch m h)).run s =
      match (ExceptT.run m).run s with
      | (.ok a, s') => (.ok a, s')
      | (.error e, s') => (ExceptT.run (h e)).run s' := by
  show (ExceptT.run (ExceptT.tryCatch m h)).run s = _
  rw [ExceptT.tryCatch]
  rw [ExceptT.run_mk, StateT.run_bind]
  rw [show (StateT.run m s : Except JsErr α × List NetCall)
      = StateT.run (ExceptT.run m) s from rfl]
  cases hm : (ExceptT.run m).run s with
  | mk r s' =>
    cases r with
    | ok a => rfl
    | error e => rfl

/-- Evaluation of the close-without-merge check on a `closed` action
with a readable `merged` flag. -/
theorem run_closedUnmergedCheck_closed (pull_request m : JsVal)
    (hm : pull_request.getProp (("merged").data) = .ok m) (s : List NetCall) :
    (ExceptT.run (closedUnmergedCheck (.str (("closed").data)) pull_request)).run s =
      (.ok (!m.truthy), s) := by
  unfold closedUnmergedCheck
  rw [if_pos (by decide : JsVal.strEq (.str (("closed").data)) (("closed").data) = true)]
  rw [run_bind, run_liftE, hm]
  simp only [run_pure]

/-- Evaluation of the close-without-merge check on a non-`closed`
action. -/
theorem run_closedUnmergedCheck_notclosed (action pull_request : JsVal)
    (hne : JsVal.strEq action (("closed").data) = false) (s : List NetCall) :
    (ExceptT.run (closedUnmergedCheck action pull_request)).run s =
      (.ok false, s) := by
  unfold closedUnmergedCheck
  rw [if_neg (by simp [hne])]
  exact run_pure false s

/-- The close-without-merge check passes whenever a `closed` action
carries a truthy `merged` flag. -/
theorem run_closedUnmergedCheck_pass (action pull_request : JsVal)
    (hmerge : JsVal.strEq action (("closed").data) = true →
      ∃ m, pull_request.getProp (("merged").data) = .ok m ∧ m.truthy = true)
    (s : List NetCall) :
    (ExceptT.run (closedUnmergedCheck action pull_request)).run s =
      (.ok false, s) := by
  by_cases hc : JsVal.strEq action (("closed").data) = true
  · obtain ⟨m, hm, hmt⟩ := hmerge hc
    unfold closedUnmergedCheck
    rw [if_pos hc, run_bind, run_liftE, hm]
    simp only [run_pure, hmt, Bool.not_true]
  · exact run_closedUnmergedCheck_notclosed action pull_request
      (Bool.not_eq_true _ ▸ eq_false_of_ne_true hc) s

/-- C1: for every payload on which the event gate fires — the action is
outside the allowed set, or the action is `closed` with `merged` falsy,
or the base branch is neither `master` nor `main` — `processAgentTask`
returns the skipped status and the network trace is empty: no diff
fetch, tree fetch, model call, ticket post, or email send occurs. -/
theorem c1_test (jp : Str → Except JsErr JsVal) (cfg : Config) (env : Env)
    (today : Str) (payload : JsVal) (hGS : GateSkip payload) :
    runAgent (processAgentTask jp cfg env today payload) =
      (.ok AgentResult.skipped, []) := by
  obtain ⟨action, pull_request, repository, ha, hp, hr, hcase⟩ := hGS
  unfold runAgent processAgentTask
  rcases hcase with h1 | h2 | h3
  · have h1' : jsIncludesStr allowedActions action = false := h1
    simp only [run_bind, run_liftE, ha, hp, hr, h1', Bool.not_false, if_true, run_pure]
  · obtain ⟨rfl, m, hm, hmt⟩ := h2
    simp only [run_bind, run_liftE, ha, hp, hr,
      show jsIncludesStr allowedActions (.str (("closed").data)) = true from rfl,
      run_closedUnmergedCheck_closed pull_request m hm, hmt,
      Bool.not_true, Bool.not_false, Bool.false_eq_true, if_false, if_true, run_pure]
  · obtain ⟨hincl, hmerge, b, r, hb, hr2, hrm, hrn⟩ := h3
    have hmerge2 : JsVal.strEq action (("closed").data) = true →
        ∃ m, pull_request.getProp (("merged").data) = .ok m ∧ m.truthy = true := by
      intro hc
      refine hmerge ?_
      cases action <;> simp [JsVal.strEq] at hc ⊢
      exact hc
    simp only [run_bind, run_liftE, ha, hp, hr, hincl,
      run_closedUnmergedCheck_pass action pull_request hmerge2,
      hb, hr2, hrm, hrn,
      Bool.not_true, Bool.not_false, Bool.false_eq_true, Bool.and_self,
      if_false, if_true, run_pure]

/-- The ticket-context stage of the orchestrator (the `try`-wrapped
`getJiraTicket` call of `agent.js` lines 87-102) never fails: it
returns some optional ticket, and performs the ticket-read call exactly
when the configured base URL is host-parsable. -/
theorem run_ticketStage (env : Env) (url a b k : Str) (s : List NetCall) :
    ∃ t, (ExceptT.run (tryCatch (getJiraTicket env url a b k)
        (fun _ => pure (none : Option TicketInfo)))).run s =
      (.ok t, s ++ (if (jsMatchHttpHost url).isSome then [.ticketFetch k] else [])) := by
  cases hu : jsMatchHttpHost url with
  | none =>
    refine ⟨none, ?_⟩
    rw [run_tryCatch]
    unfold getJiraTicket
    rw [hu]
    simp only [run_throw, run_pure, Option.isSome_none, Bool.false_eq_true,
      if_false, List.append_nil]
  | some hm0 =>
    unfold getJiraTicket
    rw [hu]
    rw [run_tryCatch, run_tryCatch, run_bind, run_callNet]
    cases hf : env.ticketFetch with
    | error e =>
      refine ⟨none, ?_⟩
      simp only [run_pure, Option.isSome_some, if_true]
    | ok r =>
      cases hp : parseTicketResponse r.1 r.2 with
      | ok topt =>
        refine ⟨topt, ?_⟩
        simp only [run_liftE, hp, run_pure, Option.isSome_some, if_true]
      | error e =>
        refine ⟨none, ?_⟩
        simp only [run_liftE, hp, run_pure, Option.isSome_some, if_true]


/-- Ticket-context stage when no key matches. -/
theorem run_ticketContextStage_nokey (cfg : Config) (env : Env)
    (titleV headRefV bodyV : JsVal) (s : List NetCall)
    (hk : jsMatchJiraKey (jiraSearchString titleV headRefV bodyV) = none) :
    (ExceptT.run (ticketContextStage cfg env titleV headRefV bodyV)).run s =
      (.ok ((none : Option Str), (none : Option TicketInfo)), s) := by
  unfold ticketContextStage
  rw [hk]
  exact run_pure _ s

/-- Ticket-context stage when a key matches but the ticket service is
not fully configured. -/
theorem run_ticketContextStage_nojira (cfg : Config) (env : Env)
    (titleV headRefV bodyV : JsVal) (m : Str) (s : List NetCall)
    (hk : jsMatchJiraKey (jiraSearchString titleV headRefV bodyV) = some m)
    (hno : (envTruthy cfg.jiraUrl && envTruthy cfg.jiraToken &&
      envTruthy cfg.jiraEmail) = false) :
    (ExceptT.run (ticketContextStage cfg env titleV headRefV bodyV)).run s =
      (.ok (some (jsToUpper m), (none : Option TicketInfo)), s) := by
  unfold ticketContextStage
  rw [hk]
  simp only [hno, Bool.false_eq_true, if_false, run_pure]

/-- Ticket-context stage when a key matches and the ticket service is
configured: some context option comes back and the ticket-read call is
recorded exactly when the base URL is host-parsable. -/
theorem run_ticketContextStage_jira (cfg : Config) (env : Env)
    (titleV headRefV bodyV : JsVal) (m : Str) (s : List NetCall)
    (hk : jsMatchJiraKey (jiraSearchString titleV headRefV bodyV) = some m)
    (hcfg : (envTruthy cfg.jiraUrl && envTruthy cfg.jiraToken &&
      envTruthy cfg.jiraEmail) = true) :
    ∃ t, (ExceptT.run (ticketContextStage cfg env titleV headRefV bodyV)).run s =
      (.ok (some (jsToUpper m), t),
       s ++ (if (jsMatchHttpHost (cfg.jiraUrl.getD [])).isSome
         then [.ticketFetch (jsToUpper m)] else [])) := by
  unfold ticketContextStage
  rw [hk]
  obtain ⟨t, ht⟩ := run_ticketStage env (cfg.jiraUrl.getD []) (cfg.jiraEmail.getD [])
    (cfg.jiraToken.getD []) (jsToUpper m) s
  refine ⟨t, ?_⟩
  simp only [hcfg, if_true, run_bind, ht, run_pure]



/-- The JIRA-posting sink, configured, with a resolved key, a parsable
base URL and a rendered comment body, records exactly one ticket-post
call and never fails — whatever the outcome of the post itself. -/
theorem run_handleJiraPosting_posts (cfg : Config) (env : Env)
    (pr analysis testCases action : JsVal) (K : Str) (hostM pu : Str × Str)
    (bk cb : Str) (s : List NetCall)
    (hc1 : envTruthy cfg.jiraUrl = true) (hc2 : envTruthy cfg.jiraToken = true)
    (hc3 : envTruthy cfg.jiraEmail = true)
    (hhm : jsMatchHttpHost (cfg.jiraUrl.getD []) = some hostM)
    (hcb : buildJiraCommentBody pr analysis testCases action = .ok cb)
    (hpu : jsMatchHttpHost (hostM.1 ++ (("/browse/").data) ++ K) = some pu)
    (hbk : jsMatchBrowseKey (hostM.1 ++ (("/browse/").data) ++ K) = some bk) :
    (ExceptT.run (handleJiraPosting cfg env pr analysis testCases action
      (some K))).run s =
      (.ok (), s ++ [.ticketPost (hostM.1 ++ (("/browse/").data) ++ K)
        (adfContentOfComment cb)]) := by
  unfold handleJiraPosting
  rw [if_neg (by simp [hc1, hc2, hc3])]
  simp only [run_bind, run_pure, hhm, hcb, run_liftE]
  rw [run_tryCatch]
  unfold postJiraComment
  rw [hpu, hbk]
  rw [run_bind, run_callNet]
  cases hpost : env.jiraPost with
  | ok v => simp only [run_pure]
  | error e => simp only [run_pure]

/-- The email sink with incomplete configuration is a silent no-op. -/
theorem run_sendImpactEmail_off (cfg : Config) (env : Env)
    (pr analysis testCases : JsVal) (today : Str) (s : List NetCall)
    (hoff : (!envTruthy cfg.EMAIL_HOST || !envTruthy cfg.EMAIL_USER ||
      !envTruthy cfg.EMAIL_PASS || !envTruthy cfg.EMAIL_TO) = true) :
    (ExceptT.run (sendImpactEmail cfg env pr analysis testCases today)).run s =
      (.ok (), s) := by
  unfold sendImpactEmail
  rw [if_pos hoff]
  exact run_pure () s

/-- The email sink with full configuration and renderable subject/body
records exactly one send call and never fails — whatever the send
outcome. -/
theorem run_sendImpactEmail_on (cfg : Config) (env : Env)
    (pr analysis testCases : JsVal) (today sb ht : Str) (s : List NetCall)
    (hon : (!envTruthy cfg.EMAIL_HOST || !envTruthy cfg.EMAIL_USER ||
      !envTruthy cfg.EMAIL_PASS || !envTruthy cfg.EMAIL_TO) = false)
    (hsub : buildEmailSubject pr = .ok sb)
    (hhtml : buildImpactEmailHtml pr analysis testCases today = .ok ht) :
    (ExceptT.run (sendImpactEmail cfg env pr analysis testCases today)).run s =
      (.ok (), s ++ [.emailSend]) := by
  unfold sendImpactEmail
  rw [if_neg (by simp [hon])]
  simp only [run_bind, run_liftE, hsub, hhtml]
  rw [run_tryCatch, run_callNet]
  cases hsend : env.emailSend with
  | ok v => simp only [run_pure]
  | error e => simp only [run_pure]


/-- C9: the event gate is NOT total on the repository's own test
payload `{action: 'opened', pull_request: {merged: false}}`
(from `tests/agent.test.js`): evaluating the gate dereferences
`pull_request.base.ref` on a payload whose `base` is undefined, so the
run ends in a TypeError instead of the skipped status. The trace is
empty, but the gate raises, refuting purity/totality. -/
theorem c9_test :
    runAgent (processAgentTask jpNull cfgNone envEmptyObjs [] payloadAgentTest1) =
      (.error .typeError, []) := by rfl

/-- C3: counterexample — when both model responses are the text
`{}`, which parses to an object that VIOLATES the expected shape
(no `risk`, no `testCases`), the invocation does not fail: it returns
the success status with an undefined risk score and zero test cases.
Shape violations are absorbed by optional chaining and defaulting, so
only genuine JSON parse failures are fatal. -/
theorem c3_cx_test :
    runAgent (processAgentTask jpEmptyObj cfgBase envEmptyObjs [] payloadFull) =
      (.ok (.success .undef (.num 0)),
       [.diffFetch, .treeFetch, .modelImpactCall, .modelTestGenCall]) := by rfl

/-- C7: counterexample — `getJiraTicket` DOES raise on a malformed
ticket URL: the host-parse failure throws `Invalid JIRA URL format`
outside the function's try/catch, so the error propagates to the
caller instead of being caught locally with a null result. -/
theorem c7_cx_test :
    runAgent (getJiraTicket envEmptyObjs (("not-a-url").data) [] [] (("PROJ-1").data)) =
      (.error (.thrown (("Invalid JIRA URL format").data)), []) := by rfl

/-- C7 (amended): whenever the ticket URL's host does parse,
`getJiraTicket` never raises: every fetch or response-shape failure is
caught by its try/catch and the function returns a ticket option (null
on failure), after exactly one ticket-fetch call. -/
theorem c7_amended_test (env : Env) (url a b k : Str)
    (hm : (jsMatchHttpHost url).isSome = true) :
    ∃ t, runAgent (getJiraTicket env url a b k) = (.ok t, [.ticketFetch k]) := by
  obtain ⟨hm0, hu⟩ := Option.isSome_iff_exists.mp hm
  unfold runAgent getJiraTicket
  rw [hu]
  rw [run_tryCatch, run_bind, run_callNet]
  cases hf : env.ticketFetch with
  | error e =>
    exact ⟨none, by simp only [run_pure, List.nil_append]⟩
  | ok r =>
    cases hp : parseTicketResponse r.1 r.2 with
    | ok topt =>
      exact ⟨topt, by simp only [run_liftE, hp, run_pure, List.nil_append]⟩
    | error e =>
      exact ⟨none, by simp only [run_liftE, hp, run_pure, List.nil_append]⟩

theorem c7_witness_test :
    (jsMatchHttpHost (("https://example.atlassian.net").data)).isSome = true ∧
    ∃ t, runAgent (getJiraTicket envEmptyObjs (("https://example.atlassian.net").data)
      [] [] (("PROJ-1").data)) = (.ok t, [.ticketFetch (("PROJ-1").data)]) :=
  ⟨rfl, c7_amended_test envEmptyObjs _ [] [] _ rfl⟩

/-- C5: converting the markdown line `**x** y` yields one paragraph
node containing exactly two text runs in order: `x` marked strong,
then the plain run ` y`. -/
theorem c5_test :
    adfContentOfComment (("**x** y").data) =
      [AdfNode.paragraph [⟨("x").data, true⟩, ⟨(" y").data, false⟩]] := by decide

/-- C6: for a PR with title `PROJ-123 Fix bug`, head branch
`feature/x` and empty body, the key-detection scan over the
concatenation of title, branch and body returns `PROJ-123`. -/
theorem c6_test :
    detectJiraKey (.str (("PROJ-123 Fix bug").data)) (.str (("feature/x").data))
      (.str []) = some (("PROJ-123").data) := by decide

theorem contains_append_right (p y : Str) (x : Str) (h : containsSub p y = true) :
    containsSub p (x ++ y) = true := by
  induction x with
  | nil => simpa using h
  | cons c rest ih =>
    rw [List.cons_append, containsSub]
    simp [ih]

theorem contains_append_left (p x : Str) (y : Str) (h : containsSub p x = true) :
    containsSub p (x ++ y) = true := by
  induction x with
  | nil =>
    rw [containsSub] at h
    simp only [List.isEmpty_iff] at h
    subst h
    cases y with
    | nil => rfl
    | cons c rest => rw [List.nil_append, containsSub]; simp [List.isPrefixOf]
  | cons c rest ih =>
    rw [containsSub] at h
    rw [List.cons_append, containsSub]
    rcases Bool.or_eq_true_iff.mp h with hp | hc
    · have h1 : p <+: c :: rest := List.isPrefixOf_iff_prefix.mp hp
      have h2 : p <+: (c :: rest) ++ y := h1.trans (List.prefix_append _ _)
      rw [List.cons_append] at h2
      simp [List.isPrefixOf_iff_prefix.mpr h2]
    · simp [ih hc]

set_option maxRecDepth 4000 in
/-- C8: counterexample — the generated HTML email body CAN contain the
literal text `undefined`: with a test case lacking `title` and
`expectedResult`, the row template interpolates those fields with no
default, so the rendered markup contains `undefined`. -/
theorem c8_cx_test :
    containsSub (("undefined").data)
      (exOk (buildImpactEmailHtml prC8 analysisC8 testCasesC8 [])) = true := by
  have hrow : containsSub (("undefined").data) rowC8 = true := by decide
  have h1 : analysisC8.getProp (lit ("risk")) = .ok riskObjC8 := rfl
  have h2 : jsToUpperStr (JsVal.jsOr (riskObjC8.getPropOpt (lit ("score")))
      (.str (lit ("DEFAULT")))) = .ok (("LOW").data) := rfl
  have h3 : prC8.getProp (lit ("number")) = .ok (.num 1) := rfl
  have h4 : prC8.getProp (lit ("base")) = .ok baseObjC8 := rfl
  have h5 : baseObjC8.getProp (lit ("repo")) = .ok repoObjC8 := rfl
  have h6 : repoObjC8.getProp (lit ("name")) = .ok (.str (("repo").data)) := rfl
  have h8 : prC8.getProp (lit ("title")) = .ok (.str (("t").data)) := rfl
  have h9 : prC8.getProp (lit ("merged")) = .ok (.bool false) := rfl
  have h10 : prC8.getProp (lit ("head")) = .ok headObjC8 := rfl
  have h11 : headObjC8.getProp (lit ("ref")) = .ok (.str (("feature").data)) := rfl
  have h13 : baseObjC8.getProp (lit ("ref")) = .ok (.str (("master").data)) := rfl
  have h14 : analysisC8.getProp (lit ("keyChanges")) = .ok .undef := rfl
  have h15 : jsMapArr (JsVal.jsOr .undef (.arr [])) = .ok ([] : List JsVal) := rfl
  have h16 : analysisC8.getProp (lit ("technicalDetails")) = .ok .undef := rfl
  have h17 : testCasesC8.getProp (lit ("testCases")) = .ok (.arr [.obj []]) := rfl
  have h18 : jsMapArr (JsVal.jsOr (.arr [.obj []]) (.arr [])) = .ok [JsVal.obj []] := rfl
  have h19 : List.mapM renderEmailTestRow [JsVal.obj []] = .ok [rowC8] := by rfl
  have h20 : prC8.getProp (lit ("html_url")) = .ok (.str (("u").data)) := rfl
  have hbind : ∀ {α β : Type} (a : α) (f : α → Except JsErr β),
      (Except.ok a >>= f) = f a := fun _ _ => rfl
  simp only [buildImpactEmailHtml, h1, h2, h3, h4, h5, h6, h8,
    h9, h10, h11, h13, h14, h15, h16, h17, h18, h19, h20, hbind, exOk,
    List.map_nil, List.flatten_nil, List.flatten_cons, List.append_nil]
  repeat (first
    | exact contains_append_right _ _ _ hrow
    | apply contains_append_left)

set_option maxRecDepth 4000 in
/-- C8 (amended): the fields that DO carry stated defaults are
substituted when absent — with empty analysis and test-case objects the
generated HTML contains the defaults `DEFAULT` (risk score),
`No details provided.` (reasoning) and
`No significant impact detected.` (technical details). -/
theorem c8_amended_test :
    containsSub (("DEFAULT").data)
      (exOk (buildImpactEmailHtml prC8 (.obj []) (.obj []) [])) = true ∧
    containsSub (("No details provided.").data)
      (exOk (buildImpactEmailHtml prC8 (.obj []) (.obj []) [])) = true ∧
    containsSub (("No significant impact detected.").data)
      (exOk (buildImpactEmailHtml prC8 (.obj []) (.obj []) [])) = true := by
  have e1 : (JsVal.obj []).getProp (lit ("risk")) = .ok .undef := rfl
  have e2 : jsToUpperStr (JsVal.jsOr (JsVal.undef.getPropOpt (lit ("score")))
      (.str (lit ("DEFAULT")))) = .ok (("DEFAULT").data) := rfl
  have e3 : prC8.getProp (lit ("number")) = .ok (.num 1) := rfl
  have e4 : prC8.getProp (lit ("base")) = .ok baseObjC8 := rfl
  have e5 : baseObjC8.getProp (lit ("repo")) = .ok repoObjC8 := rfl
  have e6 : repoObjC8.getProp (lit ("name")) = .ok (.str (("repo").data)) := rfl
  have e7 : prC8.getProp (lit ("title")) = .ok (.str (("t").data)) := rfl
  have e8 : prC8.getProp (lit ("merged")) = .ok (.bool false) := rfl
  have e9 : prC8.getProp (lit ("head")) = .ok headObjC8 := rfl
  have e10 : headObjC8.getProp (lit ("ref")) = .ok (.str (("feature").data)) := rfl
  have e11 : baseObjC8.getProp (lit ("ref")) = .ok (.str (("master").data)) := rfl
  have e12 : (JsVal.obj []).getProp (lit ("keyChanges")) = .ok .undef := rfl
  have e13 : jsMapArr (JsVal.jsOr .undef (.arr [])) = .ok ([] : List JsVal) := rfl
  have e14 : (JsVal.obj []).getProp (lit ("technicalDetails")) = .ok .undef := rfl
  have e15 : (JsVal.obj []).getProp (lit ("testCases")) = .ok .undef := rfl
  have e16 : List.mapM renderEmailTestRow ([] : List JsVal) =
      .ok ([] : List Str) := rfl
  have e17 : prC8.getProp (lit ("html_url")) = .ok (.str (("u").data)) := rfl
  have er : JsVal.jsToStr (JsVal.jsOr (JsVal.undef.getPropOpt (lit ("reasoning")))
      (.str (lit ("No details provided.")))) = ("No details provided.").data := rfl
  have ea : JsVal.jsToStr (JsVal.jsOr (JsVal.undef.getPropOpt (lit ("API Impact")))
      (.str (lit ("No significant impact detected.")))) =
      ("No significant impact detected.").data := rfl
  have eb : JsVal.jsToStr (JsVal.jsOr (JsVal.undef.getPropOpt (lit ("Database Impact")))
      (.str (lit ("No significant impact detected.")))) =
      ("No significant impact detected.").data := rfl
  have el : JsVal.jsToStr (JsVal.jsOr (JsVal.undef.getPropOpt (lit ("Logic Impact")))
      (.str (lit ("No significant impact detected.")))) =
      ("No significant impact detected.").data := rfl
  have es : JsVal.jsToStr (JsVal.jsOr (JsVal.undef.getPropOpt (lit ("Security Impact")))
      (.str (lit ("No significant impact detected.")))) =
      ("No significant impact detected.").data := rfl
  have hbind : ∀ {α β : Type} (a : α) (f : α → Except JsErr β),
      (Except.ok a >>= f) = f a := fun _ _ => rfl
  have hPD : containsSub (("DEFAULT").data) (("DEFAULT").data) = true := by decide
  have hPN : containsSub (("No details provided.").data)
      (("No details provided.").data) = true := by decide
  have hPS : containsSub (("No significant impact detected.").data)
      (("No significant impact detected.").data) = true := by decide
  refine ⟨?_, ?_, ?_⟩
  · simp only [buildImpactEmailHtml, e1, e2, e3, e4, e5, e6, e7, e8, e9, e10, e11,
      e12, e13, e14, e15, e16, e17, er, ea, eb, el, es, hbind, exOk,
      List.map_nil, List.flatten_nil, List.flatten_cons, List.append_nil]
    repeat (first
      | exact contains_append_right _ _ _ hPD
      | apply contains_append_left)
  · simp only [buildImpactEmailHtml, e1, e2, e3, e4, e5, e6, e7, e8, e9, e10, e11,
      e12, e13, e14, e15, e16, e17, er, ea, eb, el, es, hbind, exOk,
      List.map_nil, List.flatten_nil, List.flatten_cons, List.append_nil]
    repeat (first
      | exact contains_append_right _ _ _ hPN
      | apply contains_append_left)
  · simp only [buildImpactEmailHtml, e1, e2, e3, e4, e5, e6, e7, e8, e9, e10, e11,
      e12, e13, e14, e15, e16, e17, er, ea, eb, el, es, hbind, exOk,
      List.map_nil, List.flatten_nil, List.flatten_cons, List.append_nil]
    repeat (first
      | exact contains_append_right _ _ _ hPS
      | apply contains_append_left)

/-- C3 (amended): if the pipeline passes the gate and the impact-model
response text is not valid JSON — the modelled `JSON.parse` returns an
error on the trimmed response — then `processAgentTask` propagates that
error fatally to the invoker, with no repair or defaulting attempt, and
no further network call happens after the impact-model call. -/
theorem c3_amended_test
    (jp : Str → Except JsErr JsVal) (cfg : Config) (env : Env) (today : Str)
    (payload action pull_request repository baseV headV ownerV : JsVal)
    (baseRefV loginV nameV numV titleV bodyV headRefV : JsVal)
    (d : Str) (tv : JsVal) (ia : Str) (pe : JsErr)
    (ha : payload.getProp (("action").data) = .ok action)
    (hp : payload.getProp (("pull_request").data) = .ok pull_request)
    (hr : payload.getProp (("repository").data) = .ok repository)
    (hincl : jsIncludesStr allowedActions action = true)
    (hmerge : JsVal.strEq action (("closed").data) = true →
      ∃ m, pull_request.getProp (("merged").data) = .ok m ∧ m.truthy = true)
    (hbase : pull_request.getProp (("base").data) = .ok baseV)
    (hbref : baseV.getProp (("ref").data) = .ok baseRefV)
    (hbm : JsVal.strEq baseRefV (("master").data) = true ∨
      JsVal.strEq baseRefV (("main").data) = true)
    (howner : repository.getProp (("owner").data) = .ok ownerV)
    (hlogin : ownerV.getProp (("login").data) = .ok loginV)
    (hname : repository.getProp (("name").data) = .ok nameV)
    (hhead : pull_request.getProp (("head").data) = .ok headV)
    (hheadref : headV.getProp (("ref").data) = .ok headRefV)
    (hnum : pull_request.getProp (("number").data) = .ok numV)
    (hgh : envTruthy cfg.githubToken = true)
    (hgroq : envTruthy cfg.groqKey = true)
    (htitle : pull_request.getProp (("title").data) = .ok titleV)
    (hbody : pull_request.getProp (("body").data) = .ok bodyV)
    (hnojira : envTruthy cfg.jiraUrl = false)
    (hdiff : env.diffResult = .ok d)
    (htree : env.treeResult = .ok tv)
    (himp : env.impactContent = .ok ia)
    (hjp : jp (jsTrim ia) = .error pe) :
    runAgent (processAgentTask jp cfg env today payload) =
      (.error pe, [.diffFetch, .treeFetch, .modelImpactCall]) := by
  have hbcond : (!JsVal.strEq baseRefV (("master").data) &&
      !JsVal.strEq baseRefV (("main").data)) = false := by
    rcases hbm with h | h <;> simp [h]
  unfold runAgent processAgentTask
  cases hkm : jsMatchJiraKey (jiraSearchString titleV headRefV bodyV) with
  | none =>
    simp only [run_bind, run_liftE, run_pure, run_callNet,
      ha, hp, hr, hincl,
      run_closedUnmergedCheck_pass action pull_request hmerge,
      hbase, hbref, hbcond, howner, hlogin, hname, hhead, hheadref, hnum,
      hgh, hgroq, htitle, hbody,
      run_ticketContextStage_nokey cfg env titleV headRefV bodyV _ hkm,
      hdiff, htree, summarizeImpact, selfRefFilter, himp, hjp,
      Bool.not_true, Bool.not_false, Bool.false_eq_true, eq_self_iff_true,
      if_false, if_true, List.nil_append]
    rfl
  | some m =>
    have hno : (envTruthy cfg.jiraUrl && envTruthy cfg.jiraToken &&
        envTruthy cfg.jiraEmail) = false := by
      simp [hnojira]
    simp only [run_bind, run_liftE, run_pure, run_callNet,
      ha, hp, hr, hincl,
      run_closedUnmergedCheck_pass action pull_request hmerge,
      hbase, hbref, hbcond, howner, hlogin, hname, hhead, hheadref, hnum,
      hgh, hgroq, htitle, hbody,
      run_ticketContextStage_nojira cfg env titleV headRefV bodyV m _ hkm hno,
      hdiff, htree, summarizeImpact, selfRefFilter, himp, hjp,
      Bool.not_true, Bool.not_false, Bool.false_eq_true, eq_self_iff_true,
      if_false, if_true, List.nil_append]
    rfl

/-- C4: ticket-comment posting failure is isolated — for every run
that passes the gate, has a detected key and configured ticket service,
and whose mandatory stages (diff, tree, both model calls, both JSON
parses) succeed, if the post of the ticket comment throws then the
error is swallowed and `processAgentTask` still returns the success
status carrying the risk score and the test-case count. -/
theorem c4_test
    (jp : Str → Except JsErr JsVal) (cfg : Config) (env : Env) (today : Str)
    (payload action pull_request repository baseV headV ownerV : JsVal)
    (baseRefV loginV nameV numV titleV bodyV headRefV : JsVal)
    (d ia ta : Str) (tv va vb rv tcv : JsVal) (mK : Str)
    (hostM pu : Str × Str) (bk cb : Str) (ej : JsErr)
    (ha : payload.getProp (("action").data) = .ok action)
    (hp : payload.getProp (("pull_request").data) = .ok pull_request)
    (hr : payload.getProp (("repository").data) = .ok repository)
    (hincl : jsIncludesStr allowedActions action = true)
    (hmerge : JsVal.strEq action (("closed").data) = true →
      ∃ m, pull_request.getProp (("merged").data) = .ok m ∧ m.truthy = true)
    (hbase : pull_request.getProp (("base").data) = .ok baseV)
    (hbref : baseV.getProp (("ref").data) = .ok baseRefV)
    (hbm : JsVal.strEq baseRefV (("master").data) = true ∨
      JsVal.strEq baseRefV (("main").data) = true)
    (howner : repository.getProp (("owner").data) = .ok ownerV)
    (hlogin : ownerV.getProp (("login").data) = .ok loginV)
    (hname : repository.getProp (("name").data) = .ok nameV)
    (hhead : pull_request.getProp (("head").data) = .ok headV)
    (hheadref : headV.getProp (("ref").data) = .ok headRefV)
    (hnum : pull_request.getProp (("number").data) = .ok numV)
    (hgh : envTruthy cfg.githubToken = true)
    (hgroq : envTruthy cfg.groqKey = true)
    (htitle : pull_request.getProp (("title").data) = .ok titleV)
    (hbody : pull_request.getProp (("body").data) = .ok bodyV)
    (hkm : jsMatchJiraKey (jiraSearchString titleV headRefV bodyV) = some mK)
    (hc1 : envTruthy cfg.jiraUrl = true) (hc2 : envTruthy cfg.jiraToken = true)
    (hc3 : envTruthy cfg.jiraEmail = true)
    (hdiff : env.diffResult = .ok d)
    (htree : env.treeResult = .ok tv)
    (himp : env.impactContent = .ok ia)
    (htg : env.testGenContent = .ok ta)
    (hjpa : jp (jsTrim ia) = .ok va)
    (hjpt : jp (jsTrim ta) = .ok vb)
    (hhm : jsMatchHttpHost (cfg.jiraUrl.getD []) = some hostM)
    (hcb : buildJiraCommentBody pull_request va vb action = .ok cb)
    (hpu : jsMatchHttpHost (hostM.1 ++ (("/browse/").data) ++ jsToUpper mK) = some pu)
    (hbk : jsMatchBrowseKey (hostM.1 ++ (("/browse/").data) ++ jsToUpper mK) = some bk)
    (hjpost : env.jiraPost = .error ej)
    (hemail : ((!envTruthy cfg.EMAIL_HOST || !envTruthy cfg.EMAIL_USER ||
        !envTruthy cfg.EMAIL_PASS || !envTruthy cfg.EMAIL_TO) = true) ∨
      (((!envTruthy cfg.EMAIL_HOST || !envTruthy cfg.EMAIL_USER ||
        !envTruthy cfg.EMAIL_PASS || !envTruthy cfg.EMAIL_TO) = false) ∧
       ∃ sb ht, buildEmailSubject pull_request = .ok sb ∧
         buildImpactEmailHtml pull_request va vb today = .ok ht))
    (hrisk : va.getProp (("risk").data) = .ok rv)
    (htcs : vb.getProp (("testCases").data) = .ok tcv) :
    (runAgent (processAgentTask jp cfg env today payload)).1 =
      .ok (AgentResult.success (rv.getPropOpt (("score").data))
        (JsVal.jsOr (jsLengthOpt tcv) (.num 0))) := by
  have hbcond : (!JsVal.strEq baseRefV (("master").data) &&
      !JsVal.strEq baseRefV (("main").data)) = false := by
    rcases hbm with h | h <;> simp [h]
  obtain ⟨tk, htk⟩ := run_ticketContextStage_jira cfg env titleV headRefV bodyV mK []
    hkm (by simp [hc1, hc2, hc3])
  unfold runAgent processAgentTask
  rcases hemail with ho | ⟨ho2, sb, ht, hsub, hhtml⟩
  · simp only [run_bind, run_liftE, run_pure, run_callNet,
      ha, hp, hr, hincl,
      run_closedUnmergedCheck_pass action pull_request hmerge,
      hbase, hbref, hbcond, howner, hlogin, hname, hhead, hheadref, hnum,
      hgh, hgroq, htitle, hbody, htk, hhm, Option.isSome_some,
      hdiff, htree, summarizeImpact, generateTestCases, selfRefFilter,
      himp, htg, hjpa, hjpt,
      run_handleJiraPosting_posts cfg env pull_request va vb action
        (jsToUpper mK) hostM pu bk cb _ hc1 hc2 hc3 hhm hcb hpu hbk,
      run_sendImpactEmail_off cfg env pull_request va vb today _ ho,
      hrisk, htcs,
      Bool.not_true, Bool.not_false, Bool.false_eq_true, eq_self_iff_true,
      if_false, if_true, List.nil_append]
  · simp only [run_bind, run_liftE, run_pure, run_callNet,
      ha, hp, hr, hincl,
      run_closedUnmergedCheck_pass action pull_request hmerge,
      hbase, hbref, hbcond, howner, hlogin, hname, hhead, hheadref, hnum,
      hgh, hgroq, htitle, hbody, htk, hhm, Option.isSome_some,
      hdiff, htree, summarizeImpact, generateTestCases, selfRefFilter,
      himp, htg, hjpa, hjpt,
      run_handleJiraPosting_posts cfg env pull_request va vb action
        (jsToUpper mK) hostM pu bk cb _ hc1 hc2 hc3 hhm hcb hpu hbk,
      run_sendImpactEmail_on cfg env pull_request va vb today sb ht _ ho2 hsub hhtml,
      hrisk, htcs,
      Bool.not_true, Bool.not_false, Bool.false_eq_true, eq_self_iff_true,
      if_false, if_true, List.nil_append]

/-- C10: whenever the key pattern matches the search string, the key
used for the ticket lookup is the matched text uppercased, and the
comment is posted to the URL formed from the configured host and that
same uppercased key. -/
theorem c10_test
    (jp : Str → Except JsErr JsVal) (cfg : Config) (env : Env) (today : Str)
    (payload action pull_request repository baseV headV ownerV : JsVal)
    (baseRefV loginV nameV numV titleV bodyV headRefV : JsVal)
    (d ia ta : Str) (tv va vb rv tcv : JsVal) (mK : Str)
    (hostM pu : Str × Str) (bk cb : Str)
    (ha : payload.getProp (("action").data) = .ok action)
    (hp : payload.getProp (("pull_request").data) = .ok pull_request)
    (hr : payload.getProp (("repository").data) = .ok repository)
    (hincl : jsIncludesStr allowedActions action = true)
    (hmerge : JsVal.strEq action (("closed").data) = true →
      ∃ m, pull_request.getProp (("merged").data) = .ok m ∧ m.truthy = true)
    (hbase : pull_request.getProp (("base").data) = .ok baseV)
    (hbref : baseV.getProp (("ref").data) = .ok baseRefV)
    (hbm : JsVal.strEq baseRefV (("master").data) = true ∨
      JsVal.strEq baseRefV (("main").data) = true)
    (howner : repository.getProp (("owner").data) = .ok ownerV)
    (hlogin : ownerV.getProp (("login").data) = .ok loginV)
    (hname : repository.getProp (("name").data) = .ok nameV)
    (hhead : pull_request.getProp (("head").data) = .ok headV)
    (hheadref : headV.getProp (("ref").data) = .ok headRefV)
    (hnum : pull_request.getProp (("number").data) = .ok numV)
    (hgh : envTruthy cfg.githubToken = true)
    (hgroq : envTruthy cfg.groqKey = true)
    (htitle : pull_request.getProp (("title").data) = .ok titleV)
    (hbody : pull_request.getProp (("body").data) = .ok bodyV)
    (hkm : jsMatchJiraKey (jiraSearchString titleV headRefV bodyV) = some mK)
    (hc1 : envTruthy cfg.jiraUrl = true) (hc2 : envTruthy cfg.jiraToken = true)
    (hc3 : envTruthy cfg.jiraEmail = true)
    (hdiff : env.diffResult = .ok d)
    (htree : env.treeResult = .ok tv)
    (himp : env.impactContent = .ok ia)
    (htg : env.testGenContent = .ok ta)
    (hjpa : jp (jsTrim ia) = .ok va)
    (hjpt : jp (jsTrim ta) = .ok vb)
    (hhm : jsMatchHttpHost (cfg.jiraUrl.getD []) = some hostM)
    (hcb : buildJiraCommentBody pull_request va vb action = .ok cb)
    (hpu : jsMatchHttpHost (hostM.1 ++ (("/browse/").data) ++ jsToUpper mK) = some pu)
    (hbk : jsMatchBrowseKey (hostM.1 ++ (("/browse/").data) ++ jsToUpper mK) = some bk)
    (hemail : ((!envTruthy cfg.EMAIL_HOST || !envTruthy cfg.EMAIL_USER ||
        !envTruthy cfg.EMAIL_PASS || !envTruthy cfg.EMAIL_TO) = true) ∨
      (((!envTruthy cfg.EMAIL_HOST || !envTruthy cfg.EMAIL_USER ||
        !envTruthy cfg.EMAIL_PASS || !envTruthy cfg.EMAIL_TO) = false) ∧
       ∃ sb ht, buildEmailSubject pull_request = .ok sb ∧
         buildImpactEmailHtml pull_request va vb today = .ok ht))
    (hrisk : va.getProp (("risk").data) = .ok rv)
    (htcs : vb.getProp (("testCases").data) = .ok tcv) :
    NetCall.ticketFetch (jsToUpper mK) ∈
      (runAgent (processAgentTask jp cfg env today payload)).2 ∧
    NetCall.ticketPost (hostM.1 ++ (("/browse/").data) ++ jsToUpper mK)
      (adfContentOfComment cb) ∈
      (runAgent (processAgentTask jp cfg env today payload)).2 := by
  have hbcond : (!JsVal.strEq baseRefV (("master").data) &&
      !JsVal.strEq baseRefV (("main").data)) = false := by
    rcases hbm with h | h <;> simp [h]
  obtain ⟨tk, htk⟩ := run_ticketContextStage_jira cfg env titleV headRefV bodyV mK []
    hkm (by simp [hc1, hc2, hc3])
  unfold runAgent processAgentTask
  rcases hemail with ho | ⟨ho2, sb, ht, hsub, hhtml⟩
  · simp only [run_bind, run_liftE, run_pure, run_callNet,
      ha, hp, hr, hincl,
      run_closedUnmergedCheck_pass action pull_request hmerge,
      hbase, hbref, hbcond, howner, hlogin, hname, hhead, hheadref, hnum,
      hgh, hgroq, htitle, hbody, htk, hhm, Option.isSome_some,
      hdiff, htree, summarizeImpact, generateTestCases, selfRefFilter,
      himp, htg, hjpa, hjpt,
      run_handleJiraPosting_posts cfg env pull_request va vb action
        (jsToUpper mK) hostM pu bk cb _ hc1 hc2 hc3 hhm hcb hpu hbk,
      run_sendImpactEmail_off cfg env pull_request va vb today _ ho,
      hrisk, htcs,
      Bool.not_true, Bool.not_false, Bool.false_eq_true, eq_self_iff_true,
      if_false, if_true, List.nil_append]
    constructor <;> simp [List.mem_append]
  · simp only [run_bind, run_liftE, run_pure, run_callNet,
      ha, hp, hr, hincl,
      run_closedUnmergedCheck_pass action pull_request hmerge,
      hbase, hbref, hbcond, howner, hlogin, hname, hhead, hheadref, hnum,
      hgh, hgroq, htitle, hbody, htk, hhm, Option.isSome_some,
      hdiff, htree, summarizeImpact, generateTestCases, selfRefFilter,
      himp, htg, hjpa, hjpt,
      run_handleJiraPosting_posts cfg env pull_request va vb action
        (jsToUpper mK) hostM pu bk cb _ hc1 hc2 hc3 hhm hcb hpu hbk,
      run_sendImpactEmail_on cfg env pull_request va vb today sb ht _ ho2 hsub hhtml,
      hrisk, htcs,
      Bool.not_true, Bool.not_false, Bool.false_eq_true, eq_self_iff_true,
      if_false, if_true, List.nil_append]
    constructor <;> simp [List.mem_append]

theorem c1_witness_test :
    GateSkip payloadSkip ∧
    runAgent (processAgentTask jpNull cfgNone envEmptyObjs [] payloadSkip) =
      (.ok AgentResult.skipped, []) := by
  have hGS : GateSkip payloadSkip :=
    ⟨.str (("labeled").data), .undef, .undef, rfl, rfl, rfl, Or.inl rfl⟩
  exact ⟨hGS, c1_test jpNull cfgNone envEmptyObjs [] payloadSkip hGS⟩


theorem c3_amended_witness_test :
    runAgent (processAgentTask jpEmptyObj cfgBase envBadParse [] payloadFull) =
      (.error (.thrown (("unexpected").data)),
       [.diffFetch, .treeFetch, .modelImpactCall]) := by
  apply c3_amended_test jpEmptyObj cfgBase envBadParse [] payloadFull <;>
    first
      | rfl
      | exact Or.inl rfl
      | exact fun hc => absurd hc (by decide)

theorem c4_witness_test :
    (runAgent (processAgentTask jpEmptyObj cfgJira envPostFail [] payloadKeyed)).1 =
      .ok (AgentResult.success (JsVal.undef.getPropOpt (("score").data))
        (JsVal.jsOr (jsLengthOpt JsVal.undef) (.num 0))) := by
  apply c4_test jpEmptyObj cfgJira envPostFail [] payloadKeyed <;>
    first
      | rfl
      | exact Or.inl rfl
      | exact fun hc => absurd hc (by decide)

theorem c10_witness_test :
    jsToUpper mkC10 = (("PROJ-123").data) ∧
    hostC10.1 ++ (("/browse/").data) ++ jsToUpper mkC10 =
      (("https://x.atlassian.net/browse/PROJ-123").data) ∧
    (NetCall.ticketFetch (jsToUpper mkC10) ∈
      (runAgent (processAgentTask jpEmptyObj cfgJira envPostFail [] payloadKeyed)).2 ∧
    NetCall.ticketPost (hostC10.1 ++ (("/browse/").data) ++ jsToUpper mkC10)
      (adfContentOfComment cbC10) ∈
      (runAgent (processAgentTask jpEmptyObj cfgJira envPostFail [] payloadKeyed)).2) := by
  refine ⟨rfl, rfl, ?_⟩
  apply c10_test jpEmptyObj cfgJira envPostFail [] payloadKeyed <;>
    first
      | rfl
      | exact Or.inl rfl
      | exact fun hc => absurd hc (by decide)
